import Mathlib

/-!
Shallow embedding of the AI-article-generator repository: the image-generation
engine (`src/image_engine.py`) and the article parser (`src/llm_engine.py`),
together with theorems about their retry/fallback and parsing behaviour.

Modelling choices:
* Python strings are Lean `String` / `List Char`; helper functions mirror the
  Python builtins used by the code (`strip`, `split`, `replace`, `lower`,
  `capitalize`, `in`, `rsplit`).
* Python's builtin `hash` is fixed but unspecified within one interpreter
  session; it is passed in as an explicit function parameter `pyHash`.
* Each network attempt of the retry loops is modelled by a function
  `outcomes : Nat → Outcome` giving, per attempt index, either the URL the
  provider returned or the message of the exception the attempt raised.
  Catching all exceptions and degrading to a placeholder is modelled by the
  loop being a total Lean function.
* `_save_image_locally` performs file/network I/O and never raises (it
  returns the original URL on failure); it is passed in as `saveLocal`.
-/

namespace AIArticle

/-- Python `str.lstrip()` on a character list (ASCII whitespace). -/
def lstripL (l : List Char) : List Char := l.dropWhile Char.isWhitespace

/-- Python `str.rstrip()` on a character list (ASCII whitespace). -/
def rstripL (l : List Char) : List Char := (l.reverse.dropWhile Char.isWhitespace).reverse

/-- Python `str.strip()` on a character list (ASCII whitespace). -/
def stripL (l : List Char) : List Char := rstripL (lstripL l)

/-- Helper for `splitOnCh`: cons a character onto the first piece. -/
def consHead (c : Char) : List (List Char) → List (List Char)
  | [] => [[c]]
  | x :: xs => (c :: x) :: xs

/-- Python `s.split(sep)` for a one-character separator (keeps empty pieces). -/
def splitOnCh (sep : Char) : List Char → List (List Char)
  | [] => [[]]
  | c :: cs => if c = sep then [] :: splitOnCh sep cs else consHead c (splitOnCh sep cs)

/-- Python `sep.join(pieces)` for a one-character separator. -/
def joinCh (sep : Char) : List (List Char) → List Char
  | [] => []
  | [l] => l
  | l :: l' :: rest => l ++ sep :: joinCh sep (l' :: rest)

/-- Python `sep.join(pieces)` for a multi-character separator. -/
def joinSep (sep : List Char) : List (List Char) → List Char
  | [] => []
  | [l] => l
  | l :: l' :: rest => l ++ sep ++ joinSep sep (l' :: rest)

/-- Boolean substring test (Python `sub in s`) on character lists. -/
def infixBL (p : List Char) : List Char → Bool
  | [] => p.isEmpty
  | c :: t => p.isPrefixOf (c :: t) || infixBL p t

/-- Python `sub in s` on strings. -/
def pyIn (sub s : String) : Bool := infixBL sub.data s.data

/-- Python `str.lower()` (ASCII). -/
def lowerL (l : List Char) : List Char := l.map Char.toLower

/-- Python `str.lower()` on strings. -/
def pyLowerS (s : String) : String := ⟨lowerL s.data⟩

/-- Python `str.capitalize()`: first character upper-cased, rest lower-cased. -/
def capL : List Char → List Char
  | [] => []
  | c :: cs => c.toUpper :: cs.map Char.toLower

/-- Worker for `replaceL`; `fuel` bounds the number of scanned positions and is
always called with `fuel ≥` the length of the list, so the `0` case is inert. -/
def replaceGo (pat repl : List Char) : Nat → List Char → List Char
  | _, [] => []
  | 0, l => l
  | fuel+1, c :: cs =>
    if pat.isPrefixOf (c :: cs) then
      repl ++ replaceGo pat repl fuel (cs.drop (pat.length - 1))
    else
      c :: replaceGo pat repl fuel cs

/-- Python `s.replace(pat, repl)` for a non-empty pattern: replace every
occurrence, scanning left to right, non-overlapping. -/
def replaceL (pat repl l : List Char) : List Char := replaceGo pat repl l.length l

/-- Worker for `wsTokens` (accumulator holds the current token reversed). -/
def wsTokensGo (cur : List Char) : List Char → List (List Char)
  | [] => if cur.isEmpty then [] else [cur.reverse]
  | c :: cs =>
    if c.isWhitespace then
      if cur.isEmpty then wsTokensGo [] cs else cur.reverse :: wsTokensGo [] cs
    else wsTokensGo (c :: cur) cs

/-- Python `s.split()` with no separator: whitespace runs, empties dropped. -/
def wsTokens (l : List Char) : List (List Char) := wsTokensGo [] l

/-- The characters strictly before the last comma, if any comma occurs. -/
def beforeLastComma : List Char → Option (List Char)
  | [] => none
  | c :: cs =>
    match beforeLastComma cs with
    | some r => some (c :: r)
    | none => if c = ',' then some [] else none

/-- Python `s.rsplit(',', 1)[0]`: everything before the last comma, or the
whole string when it has no comma. -/
def rsplitCommaHead (l : List Char) : List Char := (beforeLastComma l).getD l

/-! ## Image engine (`src/image_engine.py`) -/

/-- One image dictionary as built by the Python code.  `is_placeholder`
defaults to `false`, matching `img.get('is_placeholder', False)` at the use
sites; the success records never set it. -/
structure ImageRecord where
  url : String
  local_path : String
  caption : String
  alt_text : String
  prompt : String
  tone : String
  model : String := ""
  generated : Bool := false
  is_placeholder : Bool := false
  fallback_reason : Option String := none

/-- `_optimize_prompt_for_dalle`. -/
def _optimize_prompt_for_dalle (prompt : String) : String :=
  let o1 := lowerL prompt.data
  let o2 :=
    if o1.length < 50 then o1 ++ (", detailed professional illustration, modern style").data
    else o1
  let o3 := o2 ++ (", high quality digital art, professional illustration").data
  let o4 := if o3.length > 400 then rsplitCommaHead (o3.take 400) else o3
  ⟨capL o4⟩

/-- `_optimize_prompt_for_seedream`. -/
def _optimize_prompt_for_seedream (prompt : String) : String :=
  let o1 := lowerL prompt.data
  let o2 :=
    if o1.length < 50 then o1 ++ (", detailed professional illustration, cinematic style").data
    else o1
  let o3 := o2 ++ (", high quality digital art, cinematic composition").data
  let o4 := if o3.length > 800 then rsplitCommaHead (o3.take 800) else o3
  ⟨capL o4⟩

/-- The `important_terms` list of `_generate_image_caption`. -/
def importantTerms : List (List Char) :=
  [("illustration").data, ("concept").data, ("representing").data,
   ("featuring").data, ("showing").data]

/-- `_generate_image_caption`. -/
def _generate_image_caption (prompt : String) : String :=
  let words := wsTokens (lowerL prompt.data)
  let key_words :=
    (words.filter (fun w => decide (w.length > 4) && !(importantTerms.contains w))).map capL
  if key_words.isEmpty then "AI-generated professional illustration"
  else ⟨("Professional illustration showcasing ").data ++ joinSep (" and ").data (key_words.take 3)⟩

/-- The literal alternatives of the regex `create|illustration|image|of|the`
in `_generate_alt_text`. -/
def altPatterns : List (List Char) :=
  [("create").data, ("illustration").data, ("image").data, ("of").data, ("the").data]

/-- Python `re.sub(p₁|…|pₙ, '', s, flags=IGNORECASE)` for literal alternatives:
scan left to right; at each position delete the first alternative that
matches (case-insensitively), otherwise keep the character. -/
def removePatsGo (pats : List (List Char)) : Nat → List Char → List Char
  | _, [] => []
  | 0, l => l
  | fuel+1, c :: cs =>
    match pats.find? (fun p => p.isPrefixOf (lowerL (c :: cs))) with
    | some p => removePatsGo pats fuel (cs.drop (p.length - 1))
    | none => c :: removePatsGo pats fuel cs

/-- `_generate_alt_text`. -/
def _generate_alt_text (prompt : String) : String :=
  let first := (splitOnCh ',' prompt.data).headD []
  let removed := removePatsGo altPatterns first.length first
  let alt := capL (stripL removed)
  if alt.isEmpty then "AI-generated professional illustration"
  else ⟨alt ++ (" - Professional AI illustration").data⟩

/-- The provider-dependent default reason of `_create_placeholder_image`. -/
def defaultPlaceholderReason (provider : String) : String :=
  if provider = "openai" then
    "OpenAI DALL-E API temporarily unavailable. Please try again in a few moments."
  else if provider = "seedream" then
    "SeeDream API connection failed. Please check your network connection and try again."
  else "AI image generation service temporarily unavailable."

/-- `_create_placeholder_image`: deterministic placeholder whose URL is seeded
by `hash(prompt) % 1000` (Python `%` on `int` is nonnegative here, which is
`Int.emod`). `reason = none` models passing `None`; a falsy reason (empty or
`None`) is replaced by the provider default. -/
def _create_placeholder_image (pyHash : String → Int) (provider prompt : String)
    (index : Nat) (reason : Option String) : ImageRecord :=
  let seed : Nat := ((pyHash prompt) % 1000).toNat
  let r :=
    match reason with
    | none => defaultPlaceholderReason provider
    | some s => if s = "" then defaultPlaceholderReason provider else s
  { url := "https://picsum.photos/800/600?random=" ++ toString seed
    local_path := "assets/placeholder_" ++ toString index ++ "_" ++ toString seed ++ ".jpg"
    caption := "Professional placeholder for: " ++ _generate_image_caption prompt
    alt_text := "Placeholder image - " ++ _generate_alt_text prompt
    prompt := prompt
    tone := "placeholder"
    is_placeholder := true
    generated := false
    fallback_reason := some r }

/-- Outcome of one underlying provider attempt: either the URL the provider
returned or the message of the exception the attempt raised. -/
inductive Outcome where
  | ok (url : String)
  | err (msg : String)

/-- Result of one call of a generation function: the returned record, the
number of attempts made, and the list of `time.sleep` delays performed. -/
structure GenRun where
  record : ImageRecord
  attempts : Nat
  sleeps : List Nat

/-- The retryable-error test of `_generate_dalle_image`. -/
def dalleServerError (msg : String) : Bool :=
  pyIn "500" msg || pyIn "502" msg || pyIn "503" msg || pyIn "server_error" msg

/-- The retry loop of `_generate_dalle_image` (`max_retries = 3`,
`retry_delay` starts at 2 and doubles after each sleep).  `fuel` counts the
loop iterations still available; `attempt + fuel = 3` at every call, so the
`fuel = 0` case is never reached from `_generate_dalle_image`. -/
def dalleGo (pyHash : String → Int) (saveLocal : String → Nat → String) (model : String)
    (outcomes : Nat → Outcome) (prompt tone : String) (index : Nat) :
    Nat → Nat → Nat → List Nat → GenRun
  | 0, _, _, sleeps =>
    ⟨_create_placeholder_image pyHash "openai" prompt index
       (some "Unknown error occurred during OpenAI DALL-E generation."), 3, sleeps⟩
  | fuel+1, attempt, retry_delay, sleeps =>
    match outcomes attempt with
    | .ok url =>
      ⟨{ url := url
         local_path := saveLocal url index
         caption := _generate_image_caption prompt
         alt_text := _generate_alt_text prompt
         prompt := _optimize_prompt_for_dalle prompt
         tone := tone
         model := model
         generated := true }, attempt + 1, sleeps⟩
    | .err msg =>
      if dalleServerError msg then
        if attempt < 3 - 1 then
          dalleGo pyHash saveLocal model outcomes prompt tone index
            fuel (attempt + 1) (retry_delay * 2) (sleeps ++ [retry_delay])
        else
          ⟨_create_placeholder_image pyHash "openai" prompt index
             (some "OpenAI DALL-E server is experiencing issues. Please try regenerating in a few minutes."),
           attempt + 1, sleeps⟩
      else if pyIn "rate_limit" msg then
        ⟨_create_placeholder_image pyHash "openai" prompt index
           (some "OpenAI DALL-E rate limit exceeded. Please wait a moment and try regenerating."),
         attempt + 1, sleeps⟩
      else if pyIn "content_policy" msg then
        ⟨_create_placeholder_image pyHash "openai" prompt index
           (some "Image prompt violates OpenAI content policy. Please modify the prompt and try again."),
         attempt + 1, sleeps⟩
      else
        ⟨_create_placeholder_image pyHash "openai" prompt index
           (some ("OpenAI DALL-E error: " ++ msg ++ ". Please try regenerating with a different prompt.")),
         attempt + 1, sleeps⟩

/-- `_generate_dalle_image`. -/
def _generate_dalle_image (pyHash : String → Int) (saveLocal : String → Nat → String)
    (model : String) (outcomes : Nat → Outcome) (prompt tone : String) (index : Nat) : GenRun :=
  dalleGo pyHash saveLocal model outcomes prompt tone index 3 0 2 []

/-- The `retryable_errors` test of `_generate_seedream_image` (its argument is
the already lower-cased exception message). -/
def seedreamRetryableError (m : String) : Bool :=
  pyIn "timeout" m || pyIn "connection" m || pyIn "max retries exceeded" m ||
  pyIn "connection timed out" m || pyIn "httpsconnectionpool" m ||
  pyIn "connecttimeouterror" m || pyIn "no image url returned" m ||
  pyIn "500" m || pyIn "502" m || pyIn "503" m || pyIn "504" m ||
  pyIn "server_error" m || pyIn "internal server error" m

/-- The retry loop of `_generate_seedream_image`.  A falsy URL from the API is
re-raised inside the `try` block as a "No image URL returned" exception, which
is in the retryable list. -/
def seedreamGo (pyHash : String → Int) (saveLocal : String → Nat → String) (model : String)
    (outcomes : Nat → Outcome) (prompt tone : String) (index : Nat) :
    Nat → Nat → Nat → List Nat → GenRun
  | 0, _, _, sleeps =>
    ⟨_create_placeholder_image pyHash "seedream" prompt index
       (some "Unknown error occurred during SeeDream generation."), 3, sleeps⟩
  | fuel+1, attempt, retry_delay, sleeps =>
    match (match outcomes attempt with
           | .ok url =>
             if url = "" then
               Except.error "No image URL returned from SeeDream API - connection may have timed out"
             else Except.ok url
           | .err msg => Except.error msg : Except String String) with
    | .ok url =>
      ⟨{ url := url
         local_path := saveLocal url index
         caption := _generate_image_caption prompt
         alt_text := _generate_alt_text prompt
         prompt := _optimize_prompt_for_seedream prompt
         tone := tone
         model := model
         generated := true }, attempt + 1, sleeps⟩
    | .error rawMsg =>
      let m := pyLowerS rawMsg
      if seedreamRetryableError m then
        if attempt < 3 - 1 then
          seedreamGo pyHash saveLocal model outcomes prompt tone index
            fuel (attempt + 1) (retry_delay * 2) (sleeps ++ [retry_delay])
        else
          ⟨_create_placeholder_image pyHash "seedream" prompt index
             (some "SeeDream API connection failed after multiple attempts. Please check your internet connection and try again."),
           attempt + 1, sleeps⟩
      else if pyIn "rate_limit" m then
        ⟨_create_placeholder_image pyHash "seedream" prompt index
           (some "SeeDream API rate limit exceeded. Please wait a moment and try regenerating."),
         attempt + 1, sleeps⟩
      else if pyIn "content_policy" m || pyIn "inappropriate" m then
        ⟨_create_placeholder_image pyHash "seedream" prompt index
           (some "Image prompt violates SeeDream content policy. Please modify the prompt and try again."),
         attempt + 1, sleeps⟩
      else
        ⟨_create_placeholder_image pyHash "seedream" prompt index
           (some ("SeeDream API error: " ++ rawMsg ++ ". Please try regenerating with different settings.")),
         attempt + 1, sleeps⟩

/-- `_generate_seedream_image`. -/
def _generate_seedream_image (pyHash : String → Int) (saveLocal : String → Nat → String)
    (model : String) (outcomes : Nat → Outcome) (prompt tone : String) (index : Nat) : GenRun :=
  seedreamGo pyHash saveLocal model outcomes prompt tone index 3 0 2 []

/-! ## Engine construction (`ImageEngine.__init__`, `_init_openai`,
`_init_seedream`) and the provider fallback wrapper of `src/app.py` -/

/-- The environment variables read at construction time; `none` models an
unset variable, `some ""` an empty one. -/
structure Env where
  openai_api_key : Option String := none
  ark_api_key : Option String := none
  dalle_model : Option String := none
  dalle_size : Option String := none
  dalle_quality : Option String := none
  seedream_model : Option String := none
  seedream_size : Option String := none
  max_images_per_article : Option Nat := none

/-- Python falsiness of `os.getenv` results (`None` or the empty string). -/
def pyFalsy : Option String → Bool
  | none => true
  | some s => s = ""

/-- The configuration state an `ImageEngine` holds after a successful
`__init__` (only the fields the claims depend on). -/
structure EngineConfig where
  provider : String
  max_images : Nat
  openai_key : Option String := none
  dalle_model : String := ""
  dalle_size : String := ""
  dalle_quality : String := ""
  ark_key : Option String := none
  seedream_model : String := ""
  seedream_size : String := ""

/-- `_validate_dalle_size`: keep a supported size, coerce known aspect
ratios, else fall back to `1024x1024`. -/
def validateDalleSize (size : String) : String :=
  if size = "1024x1024" || size = "1024x1792" || size = "1792x1024" then size
  else if size = "1024x720" then "1024x1024"
  else if size = "800x600" then "1024x1024"
  else if size = "1280x720" then "1024x1792"
  else "1024x1024"

/-- `_init_openai`: raises `ValueError` for a missing, placeholder
(`sk-your-…`) or `demo-mode` key. -/
def initOpenai (env : Env) : Except String EngineConfig :=
  let api_key := env.openai_api_key
  if pyFalsy api_key
      || ("sk-your-").data.isPrefixOf (api_key.getD "").data
      || api_key = some "demo-mode" then
    .error "Please configure a valid OpenAI API key in the .env file"
  else
    .ok { provider := "openai"
          max_images := env.max_images_per_article.getD 5
          openai_key := api_key
          dalle_model := env.dalle_model.getD "dall-e-3"
          dalle_size := validateDalleSize (env.dalle_size.getD "1024x1024")
          dalle_quality := env.dalle_quality.getD "standard" }

/-- `_init_seedream`: raises `ValueError` when `ARK_API_KEY` is falsy. -/
def initSeedream (env : Env) : Except String EngineConfig :=
  if pyFalsy env.ark_api_key then
    .error "Please configure ARK_API_KEY in the .env file for SeeDream"
  else
    .ok { provider := "seedream"
          max_images := env.max_images_per_article.getD 5
          ark_key := env.ark_api_key
          seedream_model := env.seedream_model.getD "seedream-4-0-250828"
          seedream_size := env.seedream_size.getD "2K" }

/-- `ImageEngine.__init__(provider)`: lower-case the provider name, dispatch
to the provider initialiser, raise for an unsupported provider. -/
def imageEngineInit (env : Env) (provider : String) : Except String EngineConfig :=
  let p := pyLowerS provider
  if p = "openai" then initOpenai env
  else if p = "seedream" then initSeedream env
  else .error ("Unsupported provider: " ++ provider ++ ". Use 'openai' or 'seedream'")

/-- The construction wrapper of `src/app.py` (lines 365-373): on a
`ValueError` whose message mentions SeeDream, fall back to the OpenAI
provider; other errors are surfaced. -/
def appInitImageEngine (env : Env) (provider : String) : Except String EngineConfig :=
  match imageEngineInit env provider with
  | .ok e => .ok e
  | .error m =>
    if pyIn "SeeDream" m || pyIn "ARK_API_KEY" m then imageEngineInit env "openai"
    else .error m

/-- Whether construction succeeded (no exception raised). -/
def exceptOk : Except String EngineConfig → Bool
  | .ok _ => true
  | .error _ => false

/-- A usable OpenAI credential per `_init_openai`'s own test. -/
def usableOpenaiKey (env : Env) : Bool :=
  !(pyFalsy env.openai_api_key
    || ("sk-your-").data.isPrefixOf ((env.openai_api_key).getD "").data
    || env.openai_api_key = some "demo-mode")

/-- A usable SeeDream credential per `_init_seedream`'s own test. -/
def usableArkKey (env : Env) : Bool := !(pyFalsy env.ark_api_key)

/-! ## `get_image_stats` -/

/-- The dictionary returned by `get_image_stats`; the Python float division is
modelled over `ℚ`. -/
structure ImageStats where
  total_images : Nat
  generated_count : Nat
  placeholder_count : Nat
  success_rate : ℚ
  model_used : String

/-- `get_image_stats` over the engine's images dictionary (an association
list from section index to image record). -/
def get_image_stats (provider dalleModel seedreamModel : String)
    (images : List (Nat × ImageRecord)) : ImageStats :=
  let total_images := images.length
  let placeholder_count := (images.filter (fun kv => kv.2.is_placeholder)).length
  let generated_count := total_images - placeholder_count
  { total_images := total_images
    generated_count := generated_count
    placeholder_count := placeholder_count
    success_rate :=
      if total_images > 0 then ((generated_count : ℚ) / (total_images : ℚ)) * 100 else 0
    model_used := if provider = "openai" then dalleModel else seedreamModel }

/-! ## Article parsing (`_parse_article_content` in `src/llm_engine.py`) -/

/-- One parsed article section. -/
structure ArticleSection where
  heading : String
  content : String
  keywords : List String
  word_count : Nat

/-- The full dictionary `_parse_article_content` returns. -/
structure Article where
  title : String
  seo_title : String
  meta_description : String
  slug : String
  sections : List ArticleSection
  cta : String
  total_word_count : Nat
  focus_keywords : List String
  language : String
  tone : String
  content : String

/-- `keywords[0] if keywords else 'the Topic'`. -/
def headKeyword : List String → String
  | [] => "the Topic"
  | k :: _ => k

/-- The lower-cased metadata line test of the meta-description scan. -/
def metaPrefixed (s : List Char) : Bool :=
  ("title:").data.isPrefixOf (lowerL s) || ("meta:").data.isPrefixOf (lowerL s) ||
  ("description:").data.isPrefixOf (lowerL s)

/-- The meta-description scan over `lines[1:]`: first stripped line that is
non-empty, longer than 80 and shorter than 300 characters, does not start
with `#` and is not a metadata line; truncated to 160 characters. -/
def findMetaDescription : List (List Char) → List Char
  | [] => []
  | l :: rest =>
    let s := stripL l
    if !s.isEmpty && decide (s.length > 80) && decide (s.length < 300)
        && !(("#").data.isPrefixOf s) && !(metaPrefixed s) then
      s.take 160
    else findMetaDescription rest

/-- The fallback meta description when the scan finds nothing. -/
def metaFallback : List String → String
  | [] => "Discover key insights and analysis in this comprehensive guide covering important trends and developments."
  | k :: _ => "Comprehensive analysis of " ++ k ++ " and its impact. Explore key insights, trends, and implications in this detailed guide."

/-- The grouping loop of `_parse_article_content`: split the line list into
parts, each part starting at a `## `-prefixed line (the accumulator holds the
current part's lines reversed). -/
def buildPartsGo (cur : List (List Char)) : List (List Char) → List (List Char)
  | [] => if cur.isEmpty then [] else [joinCh '\n' cur.reverse]
  | l :: rest =>
    if ("## ").data.isPrefixOf l then
      if cur.isEmpty then buildPartsGo [l] rest
      else joinCh '\n' cur.reverse :: buildPartsGo [l] rest
    else buildPartsGo (l :: cur) rest

/-- The per-part processing: strip the part, require it to start with `## `,
take the first line as heading (with all `'## '` occurrences removed and
stripped) and the remaining lines as content; keep the section only when both
heading and content are non-empty. -/
def processPart (keywords : List String) (part0 : List Char) : Option ArticleSection :=
  let part := stripL part0
  if part.isEmpty || !(("## ").data.isPrefixOf part) then none
  else
    let part_lines := splitOnCh '\n' part
    let heading := stripL (replaceL ("## ").data [] (part_lines.headD []))
    let section_content := stripL (joinCh '\n' part_lines.tail)
    if !heading.isEmpty && !section_content.isEmpty then
      some { heading := ⟨heading⟩
             content := ⟨section_content⟩
             keywords := keywords.take 3
             word_count := (wsTokens section_content).length }
    else none

/-- The `content_start_idx` scan of the no-sections fallback: first index `i ≥ 2`
whose raw line is non-blank and not of length in `(80, 300)`; defaults to 2. -/
def findContentStartGo (i : Nat) : List (List Char) → Nat
  | [] => 2
  | l :: rest =>
    if !(stripL l).isEmpty && !(decide (l.length > 80) && decide (l.length < 300)) then i
    else findContentStartGo (i + 1) rest

/-- The no-sections fallback: synthesize at most one section from the content
after `content_start_idx`. -/
def fallbackSection (keywords : List String) (lines : List (List Char)) : List ArticleSection :=
  let idx := findContentStartGo 2 (lines.drop 2)
  if idx < lines.length then
    let all_content := stripL (joinCh '\n' (lines.drop idx))
    if !all_content.isEmpty then
      [{ heading := "Understanding " ++ headKeyword keywords
         content := ⟨all_content⟩
         keywords := keywords.take 3
         word_count := (wsTokens all_content).length }]
    else []
  else []

/-- The final fallback section. -/
def finalFallbackSection (keywords : List String) : ArticleSection :=
  { heading := "Understanding " ++ headKeyword keywords
    content := "Content parsing encountered an issue. Please review the generated content."
    keywords := keywords.take 3
    word_count := 10 }

/-- The character class kept by `_generate_slug`'s first regex. -/
def slugKeep (c : Char) : Bool :=
  ('a' ≤ c && c ≤ 'z') || ('0' ≤ c && c ≤ '9') || c.isWhitespace || c = '-'

/-- Collapse every maximal run of characters satisfying `p` into one `rep`
(the Python `re.sub(r'\s+', '-', …)` / `re.sub(r'-+', '-', …) `steps). -/
def collapseGo (p : Char → Bool) (rep : Char) (inRun : Bool) : List Char → List Char
  | [] => []
  | c :: cs =>
    if p c then
      if inRun then collapseGo p rep true cs else rep :: collapseGo p rep true cs
    else c :: collapseGo p rep false cs

/-- `_generate_slug`. -/
def _generate_slug (title : String) : String :=
  let s1 := (lowerL title.data).filter slugKeep
  let s2 := collapseGo Char.isWhitespace '-' false s1
  let s3 := collapseGo (fun c => c = '-') '-' false s2
  let s4 := ((s3.dropWhile (fun c => c = '-')).reverse.dropWhile (fun c => c = '-')).reverse
  if s4.length > 50 then ⟨s4.take 50⟩ else ⟨s4⟩

/-- `_generate_cta`: picks one of four templates by `hash(title) % 4`. -/
def _generate_cta (pyHash : String → Int) (title : String) (keywords : List String) : String :=
  let primary := match keywords with | [] => "this topic" | k :: _ => k
  let cta_options :=
    ["Stay informed about " ++ primary ++ " developments by following our latest updates.",
     "Explore more insights about " ++ primary ++ " in our related articles.",
     "Keep up with " ++ primary ++ " trends and analysis through our newsletter.",
     "Discover more about " ++ primary ++ " with our comprehensive resources."]
  cta_options.getD ((pyHash title % (cta_options.length : Int)).toNat) ""

/-- `content.replace('**', '').strip()`. -/
def cleanedContentL (content : String) : List Char :=
  stripL (replaceL ("**").data [] content.data)

/-- `cleaned_content.split('\n')`. -/
def parseLines (content : String) : List (List Char) :=
  splitOnCh '\n' (cleanedContentL content)

/-- The sections surviving the grouping and per-part processing. -/
def parseSectionsRaw (keywords : List String) (lines : List (List Char)) :
    List ArticleSection :=
  (buildPartsGo [] lines).filterMap (processPart keywords)

/-- The full section pipeline: processed sections, then the no-sections
fallback, then the final fallback. -/
def parseSections (keywords : List String) (lines : List (List Char)) :
    List ArticleSection :=
  let sections1 := parseSectionsRaw keywords lines
  let sections2 := if sections1.isEmpty then fallbackSection keywords lines else sections1
  if sections2.isEmpty then [finalFallbackSection keywords] else sections2

/-- `_parse_article_content`: clean the reply (`'**'` removal and outer
strip), split into lines, extract title and meta description, group lines at
`## ` headings, keep the well-formed sections, and fall back to a single
synthesized section when none survive.  The `try/except` wrapper never fires:
every step of the body is total. -/
def _parse_article_content (pyHash : String → Int) (content : String)
    (keywords : List String) (language tone : String) : Article :=
  let cleaned_content := cleanedContentL content
  let lines := parseLines content
  let title : List Char := match lines with | [] => ("Generated Article").data | l :: _ => stripL l
  let meta0 := findMetaDescription lines.tail
  let meta_description := if meta0.isEmpty then (metaFallback keywords).data else meta0
  let sections3 := parseSections keywords lines
  { title := ⟨title⟩
    seo_title := ⟨title⟩
    meta_description := ⟨meta_description⟩
    slug := _generate_slug ⟨title⟩
    sections := sections3
    cta := _generate_cta pyHash ⟨title⟩ keywords
    total_word_count := (sections3.map (fun s => s.word_count)).sum
    focus_keywords := keywords.take 3
    language := language
    tone := tone
    content := ⟨cleaned_content⟩ }

/-! ## Derived notions used in theorem statements -/

/-- The heading-line test of the grouping loop. -/
def isHeadingLine (l : List Char) : Bool := ("## ").data.isPrefixOf l

/-- The line list of a structured reply tail: blocks of one `## `-heading
line (heading text `b.1`) followed by body lines `b.2`. -/
def flattenBlocks (blocks : List (List Char × List (List Char))) : List (List Char) :=
  (blocks.map (fun b => (("## ").data ++ b.1) :: b.2)).flatten

/-- The joined text of one block, as the grouping loop produces it. -/
def blockPart (b : List Char × List (List Char)) : List Char :=
  joinCh '\n' ((("## ").data ++ b.1) :: b.2)

/-- The section record the parser produces for one well-formed block. -/
def blockSection (keywords : List String) (b : List Char × List (List Char)) : ArticleSection :=
  { heading := ⟨stripL b.1⟩
    content := ⟨stripL (joinCh '\n' b.2)⟩
    keywords := keywords.take 3
    word_count := (wsTokens (stripL (joinCh '\n' b.2))).length }

/-- Well-formedness of one reply block for the exact-sections theorem:
lines contain no newline and no `'**'`, the heading text contains no `'##'`
and is non-blank, body lines are not themselves heading lines, the body text
is non-blank, and the block's joined text carries no outer whitespace. -/
def goodBlock (b : List Char × List (List Char)) : Prop :=
  ('\n' ∉ b.1 ∧ ∀ l ∈ b.2, '\n' ∉ l) ∧
  (¬ ("**").data <:+: b.1 ∧ ∀ l ∈ b.2, ¬ ("**").data <:+: l) ∧
  ¬ ("##").data <:+: b.1 ∧
  stripL b.1 ≠ [] ∧
  (∀ l ∈ b.2, isHeadingLine l = false) ∧
  stripL (joinCh '\n' b.2) ≠ [] ∧
  stripL (blockPart b) = blockPart b

instance decidableGoodBlock (b : List Char × List (List Char)) : Decidable (goodBlock b) := by
  unfold goodBlock
  infer_instance

/-! ## Supporting lemmas: the Python string helpers -/

theorem prefixOf_iff (p l : List Char) : p.isPrefixOf l = true ↔ p <+: l :=
  List.isPrefixOf_iff_prefix

theorem infixBL_iff (p l : List Char) : infixBL p l = true ↔ p <:+: l := by
  induction l with
  | nil =>
    simp [infixBL, List.isEmpty_iff, List.infix_nil]
  | cons c t ih =>
    simp [infixBL, ih, prefixOf_iff, List.infix_cons_iff]

theorem pyIn_iff (sub s : String) : pyIn sub s = true ↔ sub.data <:+: s.data := by
  simp [pyIn, infixBL_iff]

theorem head?_dropWhile_false {p : Char → Bool} {l : List Char} {c : Char}
    (h : (l.dropWhile p).head? = some c) : p c = false := by
  induction l with
  | nil => simp [List.dropWhile] at h
  | cons a t ih =>
    by_cases hp : p a
    · rw [List.dropWhile_cons_of_pos hp] at h; exact ih h
    · rw [List.dropWhile_cons_of_neg hp] at h
      simp at h
      subst h
      simpa using hp

theorem dropWhile_dropWhile (p : Char → Bool) (l : List Char) :
    (l.dropWhile p).dropWhile p = l.dropWhile p := by
  induction l with
  | nil => simp
  | cons a t ih =>
    by_cases hp : p a
    · rw [List.dropWhile_cons_of_pos hp]; exact ih
    · rw [List.dropWhile_cons_of_neg hp, List.dropWhile_cons_of_neg hp]

theorem dropWhile_eq_self_of_head? {p : Char → Bool} {l : List Char}
    (h : ∀ c, l.head? = some c → p c = false) : l.dropWhile p = l := by
  cases l with
  | nil => simp
  | cons a t =>
    have ha : p a = false := h a rfl
    have hneg : ¬ p a = true := by simp [ha]
    rw [List.dropWhile_cons_of_neg hneg]

theorem head?_eq_of_prefix {a b : List Char} (h : a <+: b) (ha : a ≠ []) :
    a.head? = b.head? := by
  cases a with
  | nil => exact absurd rfl ha
  | cons x t =>
    obtain ⟨r, hr⟩ := h
    rw [← hr]
    rfl

theorem rstripL_prefix_self (l : List Char) : rstripL l <+: l := by
  unfold rstripL
  have h2 : l.reverse.dropWhile Char.isWhitespace <:+ l.reverse := List.dropWhile_suffix _
  have h3 : (l.reverse.dropWhile Char.isWhitespace).reverse <+: l.reverse.reverse := by
    rw [List.reverse_prefix]
    exact h2
  simpa using h3

theorem lstripL_suffix (l : List Char) : lstripL l <:+ l := List.dropWhile_suffix _

theorem stripL_infix_self (l : List Char) : stripL l <:+: l := by
  unfold stripL
  exact (rstripL_prefix_self (lstripL l)).isInfix.trans (lstripL_suffix l).isInfix

theorem lstripL_head?_false {l : List Char} {c : Char} (h : (lstripL l).head? = some c) :
    Char.isWhitespace c = false :=
  head?_dropWhile_false (p := Char.isWhitespace) (l := l) h

theorem lstripL_idem (l : List Char) : lstripL (lstripL l) = lstripL l :=
  dropWhile_dropWhile _ _

theorem rstripL_idem (l : List Char) : rstripL (rstripL l) = rstripL l := by
  unfold rstripL
  rw [List.reverse_reverse, dropWhile_dropWhile]

theorem lstripL_rstripL_lstripL (l : List Char) :
    lstripL (rstripL (lstripL l)) = rstripL (lstripL l) := by
  apply dropWhile_eq_self_of_head?
  intro c hc
  by_cases hnil : rstripL (lstripL l) = []
  · rw [hnil] at hc; simp at hc
  · have hpre : rstripL (lstripL l) <+: lstripL l := rstripL_prefix_self _
    have hh : (rstripL (lstripL l)).head? = (lstripL l).head? := head?_eq_of_prefix hpre hnil
    exact lstripL_head?_false (by rw [← hh]; exact hc)

theorem stripL_idem (l : List Char) : stripL (stripL l) = stripL l := by
  unfold stripL
  rw [lstripL_rstripL_lstripL, rstripL_idem]

theorem splitOnCh_ne_nil (sep : Char) (l : List Char) : splitOnCh sep l ≠ [] := by
  cases l with
  | nil => simp [splitOnCh]
  | cons c cs =>
    simp only [splitOnCh]
    split
    · simp
    · cases h : splitOnCh sep cs <;> simp [consHead]

theorem joinCh_cons_cons (sep : Char) (l l' : List Char) (rest : List (List Char)) :
    joinCh sep (l :: l' :: rest) = l ++ sep :: joinCh sep (l' :: rest) := rfl

theorem joinCh_consHead (sep c : Char) (r : List (List Char)) (hr : r ≠ []) :
    joinCh sep (consHead c r) = c :: joinCh sep r := by
  cases r with
  | nil => exact absurd rfl hr
  | cons x xs =>
    cases xs with
    | nil => rfl
    | cons y ys => rfl

theorem joinCh_splitOnCh (sep : Char) (l : List Char) :
    joinCh sep (splitOnCh sep l) = l := by
  induction l with
  | nil => rfl
  | cons c cs ih =>
    simp only [splitOnCh]
    by_cases hc : c = sep
    · rw [if_pos hc]
      cases h : splitOnCh sep cs with
      | nil => exact absurd h (splitOnCh_ne_nil sep cs)
      | cons x xs =>
        rw [h] at ih
        rw [joinCh_cons_cons, ih, hc]
        simp
    · rw [if_neg hc, joinCh_consHead sep c _ (splitOnCh_ne_nil sep cs), ih]

theorem splitOnCh_no_sep {sep : Char} {l : List Char} (h : sep ∉ l) :
    splitOnCh sep l = [l] := by
  induction l with
  | nil => rfl
  | cons c cs ih =>
    have hc : ¬ c = sep := fun hc => h (by simp [hc])
    have hcs : sep ∉ cs := fun hm => h (by simp [hm])
    simp only [splitOnCh, if_neg hc, ih hcs, consHead]

theorem splitOnCh_append_sep {sep : Char} {l : List Char} (t : List Char) (h : sep ∉ l) :
    splitOnCh sep (l ++ sep :: t) = l :: splitOnCh sep t := by
  induction l with
  | nil => simp [splitOnCh]
  | cons c cs ih =>
    have hc : ¬ c = sep := fun hc => h (by simp [hc])
    have hcs : sep ∉ cs := fun hm => h (by simp [hm])
    rw [List.cons_append]
    simp only [splitOnCh, if_neg hc]
    rw [ih hcs]
    rfl

theorem splitOnCh_joinCh {sep : Char} {L : List (List Char)} (hne : L ≠ [])
    (h : ∀ l ∈ L, sep ∉ l) : splitOnCh sep (joinCh sep L) = L := by
  induction L with
  | nil => exact absurd rfl hne
  | cons x xs ih =>
    cases xs with
    | nil => exact splitOnCh_no_sep (h x (by simp))
    | cons y ys =>
      rw [joinCh_cons_cons, splitOnCh_append_sep _ (h x (by simp)),
        ih (by simp) (fun l hl => h l (List.mem_cons_of_mem _ hl))]

theorem infix_of_append_sep {p a b : List Char} {sep : Char} (hsep : sep ∉ p)
    (h : p <:+: a ++ sep :: b) : p <:+: a ∨ p <:+: b := by
  induction a with
  | nil =>
    rw [List.nil_append, List.infix_cons_iff] at h
    cases h with
    | inl hp =>
      cases p with
      | nil => exact Or.inl (List.nil_infix)
      | cons q qs =>
        obtain ⟨r, hr⟩ := hp
        rw [List.cons_append] at hr
        injection hr with h1 _
        exact absurd (h1 ▸ List.mem_cons_self q qs) hsep
    | inr h => exact Or.inr h
  | cons x a' ih =>
    rw [List.cons_append, List.infix_cons_iff] at h
    cases h with
    | inl hp =>
      cases p with
      | nil => exact Or.inl (List.nil_infix)
      | cons q qs =>
        obtain ⟨r, hr⟩ := hp
        rw [List.cons_append] at hr
        injection hr with h1 h2
        have hqs : qs <+: a' ++ sep :: b := ⟨r, h2⟩
        have ha' : a' <+: a' ++ sep :: b := List.prefix_append _ _
        rcases List.prefix_or_prefix_of_prefix hqs ha' with hq | hq
        · subst h1
          exact Or.inl (List.IsPrefix.isInfix (List.cons_prefix_cons.mpr ⟨rfl, hq⟩))
        · obtain ⟨s, hs⟩ := hq
          cases s with
          | nil =>
            subst h1
            rw [List.append_nil] at hs
            exact Or.inl (List.IsPrefix.isInfix
              (List.cons_prefix_cons.mpr ⟨rfl, by rw [← hs]⟩))
          | cons s0 s' =>
            exfalso
            rw [← hs, List.append_assoc] at h2
            have h3 := List.append_cancel_left h2
            rw [List.cons_append] at h3
            injection h3 with h4 _
            apply hsep
            rw [← h4, ← hs]
            exact List.mem_cons_of_mem q (by simp)
    | inr h' =>
      rcases ih h' with h1 | h2
      · exact Or.inl (List.infix_cons h1)
      · exact Or.inr h2

theorem mem_infix_joinCh {sep : Char} {l : List Char} {L : List (List Char)} (h : l ∈ L) :
    l <:+: joinCh sep L := by
  induction L with
  | nil => simp at h
  | cons x xs ih =>
    cases xs with
    | nil =>
      have : l = x := by simpa using h
      subst this
      exact List.infix_refl _
    | cons y ys =>
      rw [joinCh_cons_cons]
      rcases List.mem_cons.mp h with h1 | h2
      · subst h1
        exact (List.prefix_append _ _).isInfix
      · have hi := ih h2
        have hsuf : sep :: joinCh sep (y :: ys) <:+ x ++ sep :: joinCh sep (y :: ys) :=
          List.suffix_append _ _
        exact (hi.trans (List.infix_cons (List.infix_refl _))).trans hsuf.isInfix

theorem infix_joinCh_split {sep : Char} {p : List Char} {L : List (List Char)}
    (hp : p ≠ []) (hsep : sep ∉ p) (h : p <:+: joinCh sep L) : ∃ l ∈ L, p <:+: l := by
  induction L with
  | nil =>
    rw [show joinCh sep [] = [] from rfl, List.infix_nil] at h
    exact absurd h hp
  | cons x xs ih =>
    cases xs with
    | nil => exact ⟨x, by simp, h⟩
    | cons y ys =>
      rw [joinCh_cons_cons] at h
      rcases infix_of_append_sep hsep h with h1 | h2
      · exact ⟨x, by simp, h1⟩
      · obtain ⟨l, hl, hli⟩ := ih h2
        exact ⟨l, List.mem_cons_of_mem _ hl, hli⟩

theorem replaceGo_no_occ {pat r l : List Char} (fuel : Nat) (h : ¬ pat <:+: l) :
    replaceGo pat r fuel l = l := by
  induction l generalizing fuel with
  | nil => cases fuel <;> rfl
  | cons c cs ih =>
    cases fuel with
    | zero => rfl
    | succ f =>
      have hpre : ¬ pat.isPrefixOf (c :: cs) = true := by
        intro hp
        exact h ((prefixOf_iff _ _).mp hp).isInfix
      have hcs : ¬ pat <:+: cs := fun hin => h (List.infix_cons hin)
      simp only [replaceGo, if_neg hpre]
      rw [ih f hcs]

theorem replaceL_no_occ {pat r l : List Char} (h : ¬ pat <:+: l) : replaceL pat r l = l :=
  replaceGo_no_occ _ h

theorem replaceGo_cons_step {pat r : List Char} (hpat : pat ≠ []) (f : Nat) (rest : List Char) :
    replaceGo pat r (f + 1) (pat ++ rest) = r ++ replaceGo pat r f rest := by
  cases pat with
  | nil => exact absurd rfl hpat
  | cons p0 pt =>
    rw [List.cons_append]
    have hpre : ((p0 :: pt).isPrefixOf (p0 :: (pt ++ rest))) = true :=
      (prefixOf_iff _ _).mpr (by rw [← List.cons_append]; exact List.prefix_append _ _)
    simp only [replaceGo, if_pos hpre]
    have hdrop : (pt ++ rest).drop ((p0 :: pt).length - 1) = rest := by
      simp [List.drop_left]
    rw [hdrop]

theorem replaceL_heading {h : List Char} (hno : ¬ ("##").data <:+: h) :
    replaceL ("## ").data [] (("## ").data ++ h) = h := by
  have hno3 : ¬ ("## ").data <:+: h := by
    intro hin
    exact hno (List.IsInfix.trans (List.IsPrefix.isInfix (by decide)) hin)
  unfold replaceL
  cases hL : (("## ").data ++ h).length with
  | zero =>
    exfalso
    have : ("## ").data ++ h = [] := List.length_eq_zero.mp hL
    have := List.append_eq_nil.mp this
    simp at this
  | succ f =>
    rw [replaceGo_cons_step (by decide) f h, replaceGo_no_occ f hno3]
    rfl

theorem string_data_inj {a b : String} (h : a.data = b.data) : a = b := by
  cases a
  cases b
  exact congrArg String.mk h

theorem mkString_ne_empty {l : List Char} (h : l ≠ []) : (⟨l⟩ : String) ≠ "" := by
  intro he
  exact h (congrArg String.data he)

theorem infix_cons_of_ne {p : List Char} {c : Char} {t : List Char}
    (hin : p <:+: c :: t) (hne : p.head? ≠ some c) : p <:+: t := by
  rw [List.infix_cons_iff] at hin
  rcases hin with hp | hi
  · cases p with
    | nil => exact List.nil_infix
    | cons q qs =>
      obtain ⟨r, hr⟩ := hp
      rw [List.cons_append] at hr
      injection hr with h1 _
      exact absurd (by rw [h1]; rfl) hne
  · exact hi

/-! ## Supporting lemmas: the grouping loop -/

theorem buildPartsGo_acc {xs : List (List Char)} (rest : List (List Char))
    (cur : List (List Char)) (h : ∀ l ∈ xs, isHeadingLine l = false) :
    buildPartsGo cur (xs ++ rest) = buildPartsGo (xs.reverse ++ cur) rest := by
  induction xs generalizing cur with
  | nil => simp
  | cons x xs' ih =>
    have hx : ("## ").data.isPrefixOf x = false := h x (by simp)
    rw [List.cons_append]
    simp only [buildPartsGo, hx, Bool.false_eq_true, if_false]
    rw [ih _ (fun l hl => h l (List.mem_cons_of_mem _ hl))]
    simp [List.reverse_cons, List.append_assoc]

theorem buildPartsGo_blocks {blocks : List (List Char × List (List Char))}
    (hb : ∀ b ∈ blocks, ∀ l ∈ b.2, isHeadingLine l = false) :
    ∀ cur : List (List Char), cur ≠ [] →
      buildPartsGo cur (flattenBlocks blocks) =
        joinCh '\n' cur.reverse :: blocks.map blockPart := by
  induction blocks with
  | nil =>
    intro cur hcur
    have hne : ¬ cur.isEmpty = true := by simp [List.isEmpty_iff]; exact hcur
    simp only [flattenBlocks, List.map_nil, List.flatten_nil, buildPartsGo, if_neg hne]
  | cons b bs ih =>
    intro cur hcur
    have hflat : flattenBlocks (b :: bs) =
        ((("## ").data ++ b.1) :: b.2) ++ flattenBlocks bs := by
      simp [flattenBlocks]
    have hhead : ("## ").data.isPrefixOf (("## ").data ++ b.1) = true :=
      (prefixOf_iff _ _).mpr (List.prefix_append _ _)
    have hcurne : ¬ cur.isEmpty = true := by simp [List.isEmpty_iff]; exact hcur
    rw [hflat, List.cons_append]
    simp only [buildPartsGo, if_pos hhead, if_neg hcurne]
    rw [buildPartsGo_acc _ _ (hb b (by simp))]
    rw [ih (fun b' hb' => hb b' (List.mem_cons_of_mem _ hb')) _ (by simp)]
    simp [blockPart, joinCh]

theorem buildParts_structured {pre : List (List Char)}
    {blocks : List (List Char × List (List Char))}
    (hpre : ∀ l ∈ pre, isHeadingLine l = false)
    (hb : ∀ b ∈ blocks, ∀ l ∈ b.2, isHeadingLine l = false) :
    buildPartsGo [] (pre ++ flattenBlocks blocks) =
      (if pre.isEmpty then [] else [joinCh '\n' pre]) ++ blocks.map blockPart := by
  rw [buildPartsGo_acc _ [] hpre, List.append_nil]
  cases hpc : pre with
  | nil =>
    subst hpc
    simp only [List.reverse_nil, List.isEmpty_nil, if_true, List.nil_append]
    cases blocks with
    | nil => simp [flattenBlocks, buildPartsGo]
    | cons b bs =>
      have hflat : flattenBlocks (b :: bs) =
          ((("## ").data ++ b.1) :: b.2) ++ flattenBlocks bs := by
        simp [flattenBlocks]
      have hhead : ("## ").data.isPrefixOf (("## ").data ++ b.1) = true :=
        (prefixOf_iff _ _).mpr (List.prefix_append _ _)
      rw [hflat, List.cons_append]
      simp only [buildPartsGo, if_pos hhead, List.isEmpty_nil, if_true]
      rw [buildPartsGo_acc _ _ (hb b (by simp))]
      rw [buildPartsGo_blocks (fun b' hb' => hb b' (List.mem_cons_of_mem _ hb')) _ (by simp)]
      simp [blockPart, joinCh]
  | cons p ps =>
    subst hpc
    rw [buildPartsGo_blocks hb _ (by simp)]
    simp

/-! ## Supporting lemmas: per-part processing -/

theorem joinCh_cons (sep : Char) (x : List Char) (xs : List (List Char)) :
    ∃ t, joinCh sep (x :: xs) = x ++ t := by
  cases xs with
  | nil => exact ⟨[], by simp [joinCh]⟩
  | cons y ys => exact ⟨sep :: joinCh sep (y :: ys), rfl⟩

theorem processPart_none_of_no_heading {keywords : List String} {part : List Char}
    (h : ¬ ("##").data <:+: part) : processPart keywords part = none := by
  by_cases he : (stripL part).isEmpty
  · simp [processPart, he]
  · have hp : ("## ").data.isPrefixOf (stripL part) = false := by
      rw [Bool.eq_false_iff]
      intro hp
      apply h
      have h1 : ("##").data <+: stripL part :=
        List.IsPrefix.trans (by decide) ((prefixOf_iff _ _).mp hp)
      exact h1.isInfix.trans (stripL_infix_self part)
    simp [processPart, he, hp]

theorem processPart_blockPart {keywords : List String} {b : List Char × List (List Char)}
    (hgb : goodBlock b) :
    processPart keywords (blockPart b) = some (blockSection keywords b) := by
  obtain ⟨⟨hn1, hn2⟩, _hstar, hhh, hheadne, _hbody, hcontne, hstrip⟩ := hgb
  have hsplit : splitOnCh '\n' (blockPart b) = (("## ").data ++ b.1) :: b.2 := by
    apply splitOnCh_joinCh (by simp)
    intro l hl
    rcases List.mem_cons.mp hl with h1 | h2
    · subst h1
      intro hmem
      rcases List.mem_append.mp hmem with hm | hm
      · simp at hm
      · exact hn1 hm
    · exact hn2 l h2
  have hpre : ("## ").data.isPrefixOf (blockPart b) = true := by
    obtain ⟨t, ht⟩ := joinCh_cons '\n' (("## ").data ++ b.1) b.2
    rw [blockPart, ht]
    exact (prefixOf_iff _ _).mpr
      ((List.prefix_append _ _).trans (List.prefix_append _ _))
  have hne : ¬ (blockPart b).isEmpty = true := by
    obtain ⟨t, ht⟩ := joinCh_cons '\n' (("## ").data ++ b.1) b.2
    rw [blockPart, ht]
    simp [List.isEmpty_iff]
  unfold processPart
  dsimp only
  rw [hstrip, hsplit]
  rw [if_neg (by rw [hpre]; simpa using hne)]
  simp only [List.headD_cons, List.tail_cons]
  rw [replaceL_heading hhh]
  rw [if_pos (by simp [List.isEmpty_iff, hheadne, hcontne])]
  rfl

theorem filterMap_all_some {α β : Type} {f : α → Option β} {g : α → β} :
    ∀ {l : List α}, (∀ a ∈ l, f a = some (g a)) → l.filterMap f = l.map g := by
  intro l
  induction l with
  | nil => intro _; rfl
  | cons a t ih =>
    intro h
    rw [List.filterMap_cons, h a (by simp), List.map_cons,
      ih (fun x hx => h x (List.mem_cons_of_mem _ hx))]

theorem countP_flattenBlocks {blocks : List (List Char × List (List Char))}
    (hb : ∀ b ∈ blocks, ∀ l ∈ b.2, isHeadingLine l = false) :
    (flattenBlocks blocks).countP (fun l => isHeadingLine l) = blocks.length := by
  induction blocks with
  | nil => rfl
  | cons b bs ih =>
    have hflat : flattenBlocks (b :: bs) =
        ((("## ").data ++ b.1) :: b.2) ++ flattenBlocks bs := by
      simp [flattenBlocks]
    have hhead : isHeadingLine (("## ").data ++ b.1) = true :=
      (prefixOf_iff _ _).mpr (List.prefix_append _ _)
    rw [hflat, List.countP_append, List.countP_cons_of_pos _ _ (by simpa using hhead)]
    have hbody : b.2.countP (fun l => isHeadingLine l) = 0 := by
      rw [List.countP_eq_zero]
      intro l hl
      simp [hb b (by simp) l hl]
    rw [hbody, ih (fun b' hb' => hb b' (List.mem_cons_of_mem _ hb'))]
    simp [List.length_cons]
    omega

theorem fallbackSection_length_le (keywords : List String) (lines : List (List Char)) :
    (fallbackSection keywords lines).length ≤ 1 := by
  unfold fallbackSection
  dsimp only
  split
  · split
    · simp
    · simp
  · simp

theorem ite_fallback_ne_nil {α : Type} (l : List α) (x : α) :
    (if l.isEmpty then [x] else l) ≠ [] := by
  split
  · simp
  · simp_all [List.isEmpty_iff]

theorem parseSections_ne_nil (keywords : List String) (lines : List (List Char)) :
    parseSections keywords lines ≠ [] := by
  unfold parseSections
  dsimp only
  exact ite_fallback_ne_nil _ _

theorem parseSectionsRaw_structured {keywords : List String} {pre : List (List Char)}
    {blocks : List (List Char × List (List Char))}
    (hpre : ∀ l ∈ pre, isHeadingLine l = false)
    (hpreHH : ∀ l ∈ pre, ¬ ("##").data <:+: l)
    (hb : ∀ b ∈ blocks, goodBlock b) :
    parseSectionsRaw keywords (pre ++ flattenBlocks blocks) =
      blocks.map (blockSection keywords) := by
  unfold parseSectionsRaw
  rw [buildParts_structured hpre (fun b hbb => (hb b hbb).2.2.2.2.1)]
  rw [List.filterMap_append]
  have h1 : (if pre.isEmpty then [] else [joinCh '\n' pre]).filterMap (processPart keywords) = [] := by
    split
    · rfl
    · have hno : ¬ ("##").data <:+: joinCh '\n' pre := by
        intro hin
        obtain ⟨l, hl, hli⟩ := infix_joinCh_split (by decide) (by decide) hin
        exact hpreHH l hl hli
      simp [List.filterMap_cons, processPart_none_of_no_heading hno]
  rw [h1, List.nil_append, List.filterMap_map]
  exact filterMap_all_some (fun b hbb => processPart_blockPart (hb b hbb))

theorem buildPartsGo_no_heading {lines : List (List Char)} (hne : lines ≠ [])
    (hnh : ∀ l ∈ lines, isHeadingLine l = false) :
    buildPartsGo [] lines = [joinCh '\n' lines] := by
  have hacc := @buildPartsGo_acc lines [] [] hnh
  rw [List.append_nil, List.append_nil] at hacc
  rw [hacc]
  have hrev : ¬ lines.reverse.isEmpty = true := by
    simp [List.isEmpty_iff]
    exact hne
  show (if lines.reverse.isEmpty then [] else [joinCh '\n' lines.reverse.reverse]) = _
  rw [if_neg hrev, List.reverse_reverse]

theorem parseSections_no_heading {keywords : List String} {content : String}
    (h : ¬ ("##").data <:+: replaceL ("**").data [] content.data) :
    (parseSections keywords (parseLines content)).length = 1 := by
  have hclean : ¬ ("##").data <:+: cleanedContentL content := by
    intro hin
    exact h (hin.trans (stripL_infix_self _))
  have hjoin : joinCh '\n' (parseLines content) = cleanedContentL content :=
    joinCh_splitOnCh '\n' (cleanedContentL content)
  have hlines : ∀ l ∈ parseLines content, ¬ ("##").data <:+: l := by
    intro l hl hin
    apply hclean
    have h1 : l <:+: joinCh '\n' (parseLines content) := mem_infix_joinCh hl
    rw [hjoin] at h1
    exact hin.trans h1
  have hnh : ∀ l ∈ parseLines content, isHeadingLine l = false := by
    intro l hl
    rw [Bool.eq_false_iff]
    intro hp
    apply hlines l hl
    exact (List.IsPrefix.trans (by decide) ((prefixOf_iff _ _).mp hp)).isInfix
  have hraw : parseSectionsRaw keywords (parseLines content) = [] := by
    unfold parseSectionsRaw
    rw [buildPartsGo_no_heading (by rw [parseLines]; exact splitOnCh_ne_nil _ _) hnh]
    rw [hjoin]
    simp [List.filterMap_cons, processPart_none_of_no_heading hclean]
  unfold parseSections
  dsimp only
  rw [hraw]
  simp only [List.isEmpty_nil, if_true]
  have hfb := fallbackSection_length_le keywords (parseLines content)
  split
  · simp
  · rename_i hfbne
    have h1 : 1 ≤ (fallbackSection keywords (parseLines content)).length := by
      rw [Nat.one_le_iff_ne_zero]
      intro h0
      rw [List.length_eq_zero] at h0
      rw [h0] at hfbne
      simp at hfbne
    omega

theorem parse_sections_eq (pyHash : String → Int) (content : String)
    (keywords : List String) (language tone : String) :
    (_parse_article_content pyHash content keywords language tone).sections =
      parseSections keywords (parseLines content) := rfl

/-! ## Supporting lemmas: the image-generation retry loops -/

theorem default_reason_ne (provider : String) : defaultPlaceholderReason provider ≠ "" := by
  unfold defaultPlaceholderReason
  split
  · decide
  · split
    · decide
    · decide

theorem create_placeholder_reason (pyHash : String → Int) (provider prompt : String)
    (index : Nat) (reason : Option String) :
    ∃ r, (_create_placeholder_image pyHash provider prompt index reason).fallback_reason = some r ∧
      r ≠ "" := by
  unfold _create_placeholder_image
  dsimp only
  refine ⟨_, rfl, ?_⟩
  cases reason with
  | none => exact default_reason_ne provider
  | some s =>
    dsimp only
    split
    · exact default_reason_ne provider
    · assumption

theorem create_placeholder_url_ne (pyHash : String → Int) (provider prompt : String)
    (index : Nat) (reason : Option String) :
    (_create_placeholder_image pyHash provider prompt index reason).url ≠ "" := by
  unfold _create_placeholder_image
  dsimp only
  intro h
  have hd := congrArg String.data h
  rw [String.data_append] at hd
  have h2 : (("https://picsum.photos/800/600?random=").data : List Char) = [] :=
    (List.append_eq_nil.mp hd).1
  exact absurd h2 (by decide)

theorem create_placeholder_is_placeholder (pyHash : String → Int) (provider prompt : String)
    (index : Nat) (reason : Option String) :
    (_create_placeholder_image pyHash provider prompt index reason).is_placeholder = true := rfl

theorem dalleGo_url_ne (pyHash : String → Int) (saveLocal : String → Nat → String)
    (model : String) (outcomes : Nat → Outcome) (prompt tone : String) (index : Nat)
    (hok : ∀ k u, outcomes k = Outcome.ok u → u ≠ "") :
    ∀ fuel attempt retry_delay sleeps,
      (dalleGo pyHash saveLocal model outcomes prompt tone index
        fuel attempt retry_delay sleeps).record.url ≠ "" := by
  intro fuel
  induction fuel with
  | zero =>
    intro attempt retry_delay sleeps
    exact create_placeholder_url_ne _ _ _ _ _
  | succ f ih =>
    intro attempt retry_delay sleeps
    cases hout : outcomes attempt with
    | ok u =>
      simp only [dalleGo, hout]
      exact hok attempt u hout
    | err m =>
      simp only [dalleGo, hout]
      repeat' split
      all_goals first
        | exact ih _ _ _
        | exact create_placeholder_url_ne _ _ _ _ _

theorem seedreamGo_url_ne (pyHash : String → Int) (saveLocal : String → Nat → String)
    (model : String) (outcomes : Nat → Outcome) (prompt tone : String) (index : Nat) :
    ∀ fuel attempt retry_delay sleeps,
      (seedreamGo pyHash saveLocal model outcomes prompt tone index
        fuel attempt retry_delay sleeps).record.url ≠ "" := by
  intro fuel
  induction fuel with
  | zero =>
    intro attempt retry_delay sleeps
    exact create_placeholder_url_ne _ _ _ _ _
  | succ f ih =>
    intro attempt retry_delay sleeps
    cases hout : outcomes attempt with
    | ok u =>
      by_cases hu : u = ""
      · simp only [seedreamGo, hout]
        rw [if_pos hu]
        dsimp only
        repeat' split
        all_goals first
          | exact ih _ _ _
          | exact create_placeholder_url_ne _ _ _ _ _
      · simp only [seedreamGo, hout]
        rw [if_neg hu]
        exact hu
    | err m =>
      simp only [seedreamGo, hout]
      repeat' split
      all_goals first
        | exact ih _ _ _
        | exact create_placeholder_url_ne _ _ _ _ _

theorem dalleGo_all_err (pyHash : String → Int) (saveLocal : String → Nat → String)
    (model : String) (outcomes : Nat → Outcome) (prompt tone : String) (index : Nat)
    (herr : ∀ k < 3, ∃ m, outcomes k = Outcome.err m) :
    ∀ fuel attempt retry_delay sleeps, attempt + fuel = 3 →
      (dalleGo pyHash saveLocal model outcomes prompt tone index
          fuel attempt retry_delay sleeps).record.is_placeholder = true ∧
        ∃ r, (dalleGo pyHash saveLocal model outcomes prompt tone index
            fuel attempt retry_delay sleeps).record.fallback_reason = some r ∧ r ≠ "" := by
  intro fuel
  induction fuel with
  | zero =>
    intro attempt retry_delay sleeps _
    exact ⟨create_placeholder_is_placeholder _ _ _ _ _, create_placeholder_reason _ _ _ _ _⟩
  | succ f ih =>
    intro attempt retry_delay sleeps hinv
    obtain ⟨m, hm⟩ := herr attempt (by omega)
    simp only [dalleGo, hm]
    repeat' split
    all_goals first
      | exact ih _ _ _ (by omega)
      | exact ⟨create_placeholder_is_placeholder _ _ _ _ _, create_placeholder_reason _ _ _ _ _⟩

theorem seedreamGo_all_err (pyHash : String → Int) (saveLocal : String → Nat → String)
    (model : String) (outcomes : Nat → Outcome) (prompt tone : String) (index : Nat)
    (herr : ∀ k < 3, ∃ m, outcomes k = Outcome.err m) :
    ∀ fuel attempt retry_delay sleeps, attempt + fuel = 3 →
      (seedreamGo pyHash saveLocal model outcomes prompt tone index
          fuel attempt retry_delay sleeps).record.is_placeholder = true ∧
        ∃ r, (seedreamGo pyHash saveLocal model outcomes prompt tone index
            fuel attempt retry_delay sleeps).record.fallback_reason = some r ∧ r ≠ "" := by
  intro fuel
  induction fuel with
  | zero =>
    intro attempt retry_delay sleeps _
    exact ⟨create_placeholder_is_placeholder _ _ _ _ _, create_placeholder_reason _ _ _ _ _⟩
  | succ f ih =>
    intro attempt retry_delay sleeps hinv
    obtain ⟨m, hm⟩ := herr attempt (by omega)
    simp only [seedreamGo, hm]
    repeat' split
    all_goals first
      | exact ih _ _ _ (by omega)
      | exact ⟨create_placeholder_is_placeholder _ _ _ _ _, create_placeholder_reason _ _ _ _ _⟩

theorem dalleRun_all_server (pyHash : String → Int) (saveLocal : String → Nat → String)
    (model : String) (outcomes : Nat → Outcome) (prompt tone : String) (index : Nat)
    (m0 m1 m2 : String)
    (h0 : outcomes 0 = Outcome.err m0) (h1 : outcomes 1 = Outcome.err m1)
    (h2 : outcomes 2 = Outcome.err m2)
    (hs0 : dalleServerError m0 = true) (hs1 : dalleServerError m1 = true)
    (hs2 : dalleServerError m2 = true) :
    _generate_dalle_image pyHash saveLocal model outcomes prompt tone index =
      ⟨_create_placeholder_image pyHash "openai" prompt index
        (some "OpenAI DALL-E server is experiencing issues. Please try regenerating in a few minutes."),
       3, [2, 4]⟩ := by
  unfold _generate_dalle_image
  simp only [dalleGo, h0, h1, h2, hs0, hs1, hs2]
  norm_num

theorem seedreamRun_all_retryable (pyHash : String → Int) (saveLocal : String → Nat → String)
    (model : String) (outcomes : Nat → Outcome) (prompt tone : String) (index : Nat)
    (m0 m1 m2 : String)
    (h0 : outcomes 0 = Outcome.err m0) (h1 : outcomes 1 = Outcome.err m1)
    (h2 : outcomes 2 = Outcome.err m2)
    (hs0 : seedreamRetryableError (pyLowerS m0) = true)
    (hs1 : seedreamRetryableError (pyLowerS m1) = true)
    (hs2 : seedreamRetryableError (pyLowerS m2) = true) :
    _generate_seedream_image pyHash saveLocal model outcomes prompt tone index =
      ⟨_create_placeholder_image pyHash "seedream" prompt index
        (some "SeeDream API connection failed after multiple attempts. Please check your internet connection and try again."),
       3, [2, 4]⟩ := by
  unfold _generate_seedream_image
  simp only [seedreamGo, h0, h1, h2, hs0, hs1, hs2]
  norm_num

theorem dalleRun_rate_limit (pyHash : String → Int) (saveLocal : String → Nat → String)
    (model : String) (outcomes : Nat → Outcome) (prompt tone : String) (index : Nat)
    (m : String) (h0 : outcomes 0 = Outcome.err m)
    (hsrv : dalleServerError m = false) (hrl : pyIn "rate_limit" m = true) :
    _generate_dalle_image pyHash saveLocal model outcomes prompt tone index =
      ⟨_create_placeholder_image pyHash "openai" prompt index
        (some "OpenAI DALL-E rate limit exceeded. Please wait a moment and try regenerating."),
       1, []⟩ := by
  unfold _generate_dalle_image
  simp only [dalleGo, h0, hsrv, hrl]
  norm_num

theorem dalleRun_content_policy (pyHash : String → Int) (saveLocal : String → Nat → String)
    (model : String) (outcomes : Nat → Outcome) (prompt tone : String) (index : Nat)
    (m : String) (h0 : outcomes 0 = Outcome.err m)
    (hsrv : dalleServerError m = false) (hrl : pyIn "rate_limit" m = false)
    (hcp : pyIn "content_policy" m = true) :
    _generate_dalle_image pyHash saveLocal model outcomes prompt tone index =
      ⟨_create_placeholder_image pyHash "openai" prompt index
        (some "Image prompt violates OpenAI content policy. Please modify the prompt and try again."),
       1, []⟩ := by
  unfold _generate_dalle_image
  simp only [dalleGo, h0, hsrv, hrl, hcp]
  norm_num

theorem seedreamRun_rate_limit (pyHash : String → Int) (saveLocal : String → Nat → String)
    (model : String) (outcomes : Nat → Outcome) (prompt tone : String) (index : Nat)
    (m : String) (h0 : outcomes 0 = Outcome.err m)
    (hretry : seedreamRetryableError (pyLowerS m) = false)
    (hrl : pyIn "rate_limit" (pyLowerS m) = true) :
    _generate_seedream_image pyHash saveLocal model outcomes prompt tone index =
      ⟨_create_placeholder_image pyHash "seedream" prompt index
        (some "SeeDream API rate limit exceeded. Please wait a moment and try regenerating."),
       1, []⟩ := by
  unfold _generate_seedream_image
  simp only [seedreamGo, h0, hretry, hrl]
  norm_num

theorem seedreamRun_content_policy (pyHash : String → Int) (saveLocal : String → Nat → String)
    (model : String) (outcomes : Nat → Outcome) (prompt tone : String) (index : Nat)
    (m : String) (h0 : outcomes 0 = Outcome.err m)
    (hretry : seedreamRetryableError (pyLowerS m) = false)
    (hrl : pyIn "rate_limit" (pyLowerS m) = false)
    (hcp : (pyIn "content_policy" (pyLowerS m) || pyIn "inappropriate" (pyLowerS m)) = true) :
    _generate_seedream_image pyHash saveLocal model outcomes prompt tone index =
      ⟨_create_placeholder_image pyHash "seedream" prompt index
        (some "Image prompt violates SeeDream content policy. Please modify the prompt and try again."),
       1, []⟩ := by
  unfold _generate_seedream_image
  simp only [seedreamGo, h0, hretry, hrl, hcp]
  norm_num

theorem capL_length (l : List Char) : (capL l).length = l.length := by
  cases l with
  | nil => rfl
  | cons c cs => simp [capL]

theorem beforeLastComma_le : ∀ {l r : List Char}, beforeLastComma l = some r →
    r.length ≤ l.length := by
  intro l
  induction l with
  | nil => intro r h; simp [beforeLastComma] at h
  | cons c cs ih =>
    intro r h
    simp only [beforeLastComma] at h
    cases hb : beforeLastComma cs with
    | some r' =>
      rw [hb] at h
      injection h with h'
      subst h'
      simp only [List.length_cons]
      exact Nat.succ_le_succ (ih hb)
    | none =>
      rw [hb] at h
      dsimp only at h
      by_cases hc : c = ','
      · rw [if_pos hc] at h
        injection h with h'
        subst h'
        simp
      · rw [if_neg hc] at h
        exact Option.noConfusion h

theorem rsplitCommaHead_le (l : List Char) : (rsplitCommaHead l).length ≤ l.length := by
  unfold rsplitCommaHead
  cases hb : beforeLastComma l with
  | none => simp
  | some r => simpa using beforeLastComma_le hb

/-! ## The claims -/

/-- C1: for every prompt, tone and index (and any pattern of underlying
provider outcomes, the DALL-E successes being genuine URLs), both
`_generate_dalle_image` and `_generate_seedream_image` return a record with a
non-empty `url` — the loops are total, modelling that no exception escapes —
and when every attempt fails the returned record is a placeholder with
`is_placeholder` set and a non-empty human-readable fallback reason. -/
theorem C1_generation_never_fails (pyHash : String → Int) (saveLocal : String → Nat → String)
    (modelD modelS : String) (outD outS : Nat → Outcome) (prompt tone : String) (index : Nat)
    (hok : ∀ k u, outD k = Outcome.ok u → u ≠ "") :
    (_generate_dalle_image pyHash saveLocal modelD outD prompt tone index).record.url ≠ "" ∧
    (_generate_seedream_image pyHash saveLocal modelS outS prompt tone index).record.url ≠ "" ∧
    ((∀ k < 3, ∃ m, outD k = Outcome.err m) →
      (_generate_dalle_image pyHash saveLocal modelD outD prompt tone index).record.is_placeholder = true ∧
      ∃ r, (_generate_dalle_image pyHash saveLocal modelD outD prompt tone index).record.fallback_reason = some r ∧ r ≠ "") ∧
    ((∀ k < 3, ∃ m, outS k = Outcome.err m) →
      (_generate_seedream_image pyHash saveLocal modelS outS prompt tone index).record.is_placeholder = true ∧
      ∃ r, (_generate_seedream_image pyHash saveLocal modelS outS prompt tone index).record.fallback_reason = some r ∧ r ≠ "") :=
  ⟨dalleGo_url_ne pyHash saveLocal modelD outD prompt tone index hok 3 0 2 [],
   seedreamGo_url_ne pyHash saveLocal modelS outS prompt tone index 3 0 2 [],
   fun h => dalleGo_all_err pyHash saveLocal modelD outD prompt tone index h 3 0 2 [] rfl,
   fun h => seedreamGo_all_err pyHash saveLocal modelS outS prompt tone index h 3 0 2 [] rfl⟩

/-- Witness for C1 at a concrete always-failing outcome pattern. -/
theorem C1_generation_never_fails_witness :
    (_generate_dalle_image (fun _ => 0) (fun u _ => u) "dall-e-3"
      (fun _ => Outcome.err "boom") "p" "professional" 0).record.url ≠ "" ∧
    (_generate_seedream_image (fun _ => 0) (fun u _ => u) "seedream-4-0-250828"
      (fun _ => Outcome.err "boom") "p" "professional" 0).record.url ≠ "" ∧
    (_generate_dalle_image (fun _ => 0) (fun u _ => u) "dall-e-3"
      (fun _ => Outcome.err "boom") "p" "professional" 0).record.is_placeholder = true ∧
    (_generate_seedream_image (fun _ => 0) (fun u _ => u) "seedream-4-0-250828"
      (fun _ => Outcome.err "boom") "p" "professional" 0).record.is_placeholder = true := by
  have h := C1_generation_never_fails (fun _ => 0) (fun u _ => u) "dall-e-3" "seedream-4-0-250828"
    (fun _ => Outcome.err "boom") (fun _ => Outcome.err "boom") "p" "professional" 0
    (fun k u hk => Outcome.noConfusion hk)
  exact ⟨h.1, h.2.1, (h.2.2.1 (fun k _ => ⟨"boom", rfl⟩)).1, (h.2.2.2 (fun k _ => ⟨"boom", rfl⟩)).1⟩

/-- Counterexample to C2 as stated: a connection-timeout message is a
transient error in the claim's sense, but `_generate_dalle_image` makes only
one attempt on it (its retryable test looks only for `500/502/503/server_error`). -/
theorem C2_counterexample :
    (_generate_dalle_image (fun _ => 0) (fun u _ => u) "dall-e-3"
      (fun _ => Outcome.err "connection timed out") "p" "professional" 0).attempts = 1 ∧
    (1 : Nat) ≠ 3 := by
  constructor
  · rfl
  · decide

/-- C2 as amended: when every attempt fails with an error the provider's own
retryable test accepts (HTTP 5xx / `server_error` for DALL-E; additionally
connection/timeout keywords for SeeDream), exactly 3 attempts are made and a
placeholder is returned. -/
theorem C2_retry_exhaustion (pyHash : String → Int) (saveLocal : String → Nat → String)
    (modelD modelS : String) (outD outS : Nat → Outcome) (prompt tone : String) (index : Nat)
    (m0 m1 m2 n0 n1 n2 : String)
    (hd0 : outD 0 = Outcome.err m0) (hd1 : outD 1 = Outcome.err m1)
    (hd2 : outD 2 = Outcome.err m2)
    (hs0 : dalleServerError m0 = true) (hs1 : dalleServerError m1 = true)
    (hs2 : dalleServerError m2 = true)
    (he0 : outS 0 = Outcome.err n0) (he1 : outS 1 = Outcome.err n1)
    (he2 : outS 2 = Outcome.err n2)
    (ht0 : seedreamRetryableError (pyLowerS n0) = true)
    (ht1 : seedreamRetryableError (pyLowerS n1) = true)
    (ht2 : seedreamRetryableError (pyLowerS n2) = true) :
    (_generate_dalle_image pyHash saveLocal modelD outD prompt tone index).attempts = 3 ∧
    (_generate_dalle_image pyHash saveLocal modelD outD prompt tone index).record.is_placeholder = true ∧
    (_generate_seedream_image pyHash saveLocal modelS outS prompt tone index).attempts = 3 ∧
    (_generate_seedream_image pyHash saveLocal modelS outS prompt tone index).record.is_placeholder = true := by
  rw [dalleRun_all_server pyHash saveLocal modelD outD prompt tone index m0 m1 m2 hd0 hd1 hd2 hs0 hs1 hs2]
  rw [seedreamRun_all_retryable pyHash saveLocal modelS outS prompt tone index n0 n1 n2 he0 he1 he2 ht0 ht1 ht2]
  exact ⟨rfl, rfl, rfl, rfl⟩

/-- Witness for the amended C2 at concrete persistently-failing messages. -/
theorem C2_retry_exhaustion_witness :
    (_generate_dalle_image (fun _ => 0) (fun u _ => u) "dall-e-3"
      (fun _ => Outcome.err "HTTP 500 server_error") "p" "professional" 0).attempts = 3 ∧
    (_generate_dalle_image (fun _ => 0) (fun u _ => u) "dall-e-3"
      (fun _ => Outcome.err "HTTP 500 server_error") "p" "professional" 0).record.is_placeholder = true ∧
    (_generate_seedream_image (fun _ => 0) (fun u _ => u) "seedream-4-0-250828"
      (fun _ => Outcome.err "Connection timed out") "p" "professional" 0).attempts = 3 ∧
    (_generate_seedream_image (fun _ => 0) (fun u _ => u) "seedream-4-0-250828"
      (fun _ => Outcome.err "Connection timed out") "p" "professional" 0).record.is_placeholder = true :=
  C2_retry_exhaustion (fun _ => 0) (fun u _ => u) "dall-e-3" "seedream-4-0-250828"
    (fun _ => Outcome.err "HTTP 500 server_error") (fun _ => Outcome.err "Connection timed out")
    "p" "professional" 0 _ _ _ _ _ _ rfl rfl rfl (by decide) (by decide) (by decide)
    rfl rfl rfl (by decide) (by decide) (by decide)

/-- C3: a first-attempt rate-limit or content-policy error (one the
provider-specific retryable test rejects) short-circuits the loop: exactly one
attempt, and the placeholder's reason names the rate limit or the policy
violation respectively, for both providers. -/
theorem C3_short_circuit :
    (∀ (pyHash : String → Int) (saveLocal : String → Nat → String) (model : String)
       (outcomes : Nat → Outcome) (prompt tone : String) (index : Nat) (m : String),
       outcomes 0 = Outcome.err m → dalleServerError m = false → pyIn "rate_limit" m = true →
       (_generate_dalle_image pyHash saveLocal model outcomes prompt tone index).attempts = 1 ∧
       (_generate_dalle_image pyHash saveLocal model outcomes prompt tone index).record.is_placeholder = true ∧
       (_generate_dalle_image pyHash saveLocal model outcomes prompt tone index).record.fallback_reason =
         some "OpenAI DALL-E rate limit exceeded. Please wait a moment and try regenerating.") ∧
    (∀ (pyHash : String → Int) (saveLocal : String → Nat → String) (model : String)
       (outcomes : Nat → Outcome) (prompt tone : String) (index : Nat) (m : String),
       outcomes 0 = Outcome.err m → dalleServerError m = false → pyIn "rate_limit" m = false →
       pyIn "content_policy" m = true →
       (_generate_dalle_image pyHash saveLocal model outcomes prompt tone index).attempts = 1 ∧
       (_generate_dalle_image pyHash saveLocal model outcomes prompt tone index).record.is_placeholder = true ∧
       (_generate_dalle_image pyHash saveLocal model outcomes prompt tone index).record.fallback_reason =
         some "Image prompt violates OpenAI content policy. Please modify the prompt and try again.") ∧
    (∀ (pyHash : String → Int) (saveLocal : String → Nat → String) (model : String)
       (outcomes : Nat → Outcome) (prompt tone : String) (index : Nat) (m : String),
       outcomes 0 = Outcome.err m → seedreamRetryableError (pyLowerS m) = false →
       pyIn "rate_limit" (pyLowerS m) = true →
       (_generate_seedream_image pyHash saveLocal model outcomes prompt tone index).attempts = 1 ∧
       (_generate_seedream_image pyHash saveLocal model outcomes prompt tone index).record.is_placeholder = true ∧
       (_generate_seedream_image pyHash saveLocal model outcomes prompt tone index).record.fallback_reason =
         some "SeeDream API rate limit exceeded. Please wait a moment and try regenerating.") ∧
    (∀ (pyHash : String → Int) (saveLocal : String → Nat → String) (model : String)
       (outcomes : Nat → Outcome) (prompt tone : String) (index : Nat) (m : String),
       outcomes 0 = Outcome.err m → seedreamRetryableError (pyLowerS m) = false →
       pyIn "rate_limit" (pyLowerS m) = false →
       (pyIn "content_policy" (pyLowerS m) || pyIn "inappropriate" (pyLowerS m)) = true →
       (_generate_seedream_image pyHash saveLocal model outcomes prompt tone index).attempts = 1 ∧
       (_generate_seedream_image pyHash saveLocal model outcomes prompt tone index).record.is_placeholder = true ∧
       (_generate_seedream_image pyHash saveLocal model outcomes prompt tone index).record.fallback_reason =
         some "Image prompt violates SeeDream content policy. Please modify the prompt and try again.") := by
  refine ⟨?_, ?_, ?_, ?_⟩
  · intro pyHash saveLocal model outcomes prompt tone index m h0 hsrv hrl
    rw [dalleRun_rate_limit pyHash saveLocal model outcomes prompt tone index m h0 hsrv hrl]
    exact ⟨rfl, rfl, rfl⟩
  · intro pyHash saveLocal model outcomes prompt tone index m h0 hsrv hrl hcp
    rw [dalleRun_content_policy pyHash saveLocal model outcomes prompt tone index m h0 hsrv hrl hcp]
    exact ⟨rfl, rfl, rfl⟩
  · intro pyHash saveLocal model outcomes prompt tone index m h0 hretry hrl
    rw [seedreamRun_rate_limit pyHash saveLocal model outcomes prompt tone index m h0 hretry hrl]
    exact ⟨rfl, rfl, rfl⟩
  · intro pyHash saveLocal model outcomes prompt tone index m h0 hretry hrl hcp
    rw [seedreamRun_content_policy pyHash saveLocal model outcomes prompt tone index m h0 hretry hrl hcp]
    exact ⟨rfl, rfl, rfl⟩

/-- Witness for C3 at concrete rate-limit and content-policy messages. -/
theorem C3_short_circuit_witness :
    (_generate_dalle_image (fun _ => 0) (fun u _ => u) "dall-e-3"
      (fun _ => Outcome.err "rate_limit exceeded") "p" "professional" 0).attempts = 1 ∧
    (_generate_dalle_image (fun _ => 0) (fun u _ => u) "dall-e-3"
      (fun _ => Outcome.err "content_policy violation") "p" "professional" 0).attempts = 1 ∧
    (_generate_seedream_image (fun _ => 0) (fun u _ => u) "seedream-4-0-250828"
      (fun _ => Outcome.err "rate_limit exceeded") "p" "professional" 0).attempts = 1 ∧
    (_generate_seedream_image (fun _ => 0) (fun u _ => u) "seedream-4-0-250828"
      (fun _ => Outcome.err "content_policy violation") "p" "professional" 0).attempts = 1 := by
  refine ⟨?_, ?_, ?_, ?_⟩
  · exact (C3_short_circuit.1 (fun _ => 0) (fun u _ => u) "dall-e-3"
      (fun _ => Outcome.err "rate_limit exceeded") "p" "professional" 0 _
      rfl (by decide) (by decide)).1
  · exact (C3_short_circuit.2.1 (fun _ => 0) (fun u _ => u) "dall-e-3"
      (fun _ => Outcome.err "content_policy violation") "p" "professional" 0 _
      rfl (by decide) (by decide) (by decide)).1
  · exact (C3_short_circuit.2.2.1 (fun _ => 0) (fun u _ => u) "seedream-4-0-250828"
      (fun _ => Outcome.err "rate_limit exceeded") "p" "professional" 0 _
      rfl (by decide) (by decide)).1
  · exact (C3_short_circuit.2.2.2 (fun _ => 0) (fun u _ => u) "seedream-4-0-250828"
      (fun _ => Outcome.err "content_policy violation") "p" "professional" 0 _
      rfl (by decide) (by decide) (by decide)).1

/-- Counterexample to C4 as stated: in a persistently transiently-failing run
only two waits ever occur — the recorded delay sequence is `[2, 4]`, not
`[2, 4, 8]`: the `8`-second delay is computed but never slept because the
third failure exits the loop. -/
theorem C4_counterexample :
    (_generate_dalle_image (fun _ => 0) (fun u _ => u) "dall-e-3"
      (fun _ => Outcome.err "HTTP 500") "p" "professional" 0).sleeps = [2, 4] ∧
    ([2, 4] : List Nat) ≠ [2, 4, 8] := by
  constructor
  · rfl
  · decide

/-- C4 as amended: the backoff starts at 2 seconds and doubles on each retry,
but across the up-to-3 attempts only two waits happen, so the slept delay
sequence of an all-transient-failure run is exactly `[2, 4]` for both
providers (together with the full 3 attempts). -/
theorem C4_backoff_sequence (pyHash : String → Int) (saveLocal : String → Nat → String)
    (modelD modelS : String) (outD outS : Nat → Outcome) (prompt tone : String) (index : Nat)
    (m0 m1 m2 n0 n1 n2 : String)
    (hd0 : outD 0 = Outcome.err m0) (hd1 : outD 1 = Outcome.err m1)
    (hd2 : outD 2 = Outcome.err m2)
    (hs0 : dalleServerError m0 = true) (hs1 : dalleServerError m1 = true)
    (hs2 : dalleServerError m2 = true)
    (he0 : outS 0 = Outcome.err n0) (he1 : outS 1 = Outcome.err n1)
    (he2 : outS 2 = Outcome.err n2)
    (ht0 : seedreamRetryableError (pyLowerS n0) = true)
    (ht1 : seedreamRetryableError (pyLowerS n1) = true)
    (ht2 : seedreamRetryableError (pyLowerS n2) = true) :
    (_generate_dalle_image pyHash saveLocal modelD outD prompt tone index).sleeps = [2, 4] ∧
    (_generate_dalle_image pyHash saveLocal modelD outD prompt tone index).attempts = 3 ∧
    (_generate_seedream_image pyHash saveLocal modelS outS prompt tone index).sleeps = [2, 4] ∧
    (_generate_seedream_image pyHash saveLocal modelS outS prompt tone index).attempts = 3 := by
  rw [dalleRun_all_server pyHash saveLocal modelD outD prompt tone index m0 m1 m2 hd0 hd1 hd2 hs0 hs1 hs2]
  rw [seedreamRun_all_retryable pyHash saveLocal modelS outS prompt tone index n0 n1 n2 he0 he1 he2 ht0 ht1 ht2]
  exact ⟨rfl, rfl, rfl, rfl⟩

/-- Witness for the amended C4. -/
theorem C4_backoff_sequence_witness :
    (_generate_dalle_image (fun _ => 0) (fun u _ => u) "dall-e-3"
      (fun _ => Outcome.err "502 Bad Gateway") "p" "professional" 0).sleeps = [2, 4] ∧
    (_generate_seedream_image (fun _ => 0) (fun u _ => u) "seedream-4-0-250828"
      (fun _ => Outcome.err "Read timeout") "p" "professional" 0).sleeps = [2, 4] := by
  have h := C4_backoff_sequence (fun _ => 0) (fun u _ => u) "dall-e-3" "seedream-4-0-250828"
    (fun _ => Outcome.err "502 Bad Gateway") (fun _ => Outcome.err "Read timeout")
    "p" "professional" 0 _ _ _ _ _ _ rfl rfl rfl (by decide) (by decide) (by decide)
    rfl rfl rfl (by decide) (by decide) (by decide)
  exact ⟨h.1, h.2.2.1⟩

/-- C5: `_create_placeholder_image` is deterministic in its prompt argument —
the placeholder `url` depends only on `hash(prompt) % 1000`, so two calls with
the same prompt (within one interpreter session, i.e. one `pyHash`) return the
same `url` whatever the index, reason or configured provider. -/
theorem C5_placeholder_deterministic (pyHash : String → Int) (provider₁ provider₂ prompt : String)
    (index₁ index₂ : Nat) (reason₁ reason₂ : Option String) :
    (_create_placeholder_image pyHash provider₁ prompt index₁ reason₁).url =
      (_create_placeholder_image pyHash provider₂ prompt index₂ reason₂).url := rfl

theorem truncate_branch_le (o3 : List Char) (n : Nat) :
    (if o3.length > n then rsplitCommaHead (o3.take n) else o3).length ≤ n := by
  split
  · exact le_trans (rsplitCommaHead_le _) (List.length_take_le _ _)
  · omega

/-- C8: the optimised prompts respect the providers' accepted lengths —
at most 400 characters for DALL-E and at most 800 for SeeDream. -/
theorem C8_prompt_truncation (prompt : String) :
    (_optimize_prompt_for_dalle prompt).length ≤ 400 ∧
    (_optimize_prompt_for_seedream prompt).length ≤ 800 := by
  constructor
  · unfold _optimize_prompt_for_dalle
    dsimp only
    show (capL _).length ≤ 400
    rw [capL_length]
    exact truncate_branch_le _ 400
  · unfold _optimize_prompt_for_seedream
    dsimp only
    show (capL _).length ≤ 800
    rw [capL_length]
    exact truncate_branch_le _ 800

/-- C10: `get_image_stats` is total on every images dictionary: on the empty
dictionary the success rate is 0 (no division by zero is performed), and the
reported total always equals generated plus placeholder counts. -/
theorem C10_stats_total (provider dalleModel seedreamModel : String)
    (images : List (Nat × ImageRecord)) :
    (get_image_stats provider dalleModel seedreamModel images).total_images =
      (get_image_stats provider dalleModel seedreamModel images).generated_count +
        (get_image_stats provider dalleModel seedreamModel images).placeholder_count ∧
    (get_image_stats provider dalleModel seedreamModel ([] : List (Nat × ImageRecord))).success_rate = 0 := by
  constructor
  · unfold get_image_stats
    dsimp only
    have hle : (images.filter (fun kv => kv.2.is_placeholder)).length ≤ images.length :=
      List.length_filter_le _ _
    omega
  · rfl

theorem mem_flattenBlocks {l : List Char} {blocks : List (List Char × List (List Char))}
    (h : l ∈ flattenBlocks blocks) :
    ∃ b ∈ blocks, l = ("## ").data ++ b.1 ∨ l ∈ b.2 := by
  unfold flattenBlocks at h
  rw [List.mem_flatten] at h
  obtain ⟨x, hx, hlx⟩ := h
  rw [List.mem_map] at hx
  obtain ⟨b, hbmem, rfl⟩ := hx
  rcases List.mem_cons.mp hlx with h1 | h2
  · exact ⟨b, hbmem, Or.inl h1⟩
  · exact ⟨b, hbmem, Or.inr h2⟩

/-- Counterexample to C6 as stated: `"Title\n## A\n## B\nbody"` has exactly two
`## `-prefixed heading lines, but the parser yields only one section — the
heading `A` has no body before the next heading and is dropped. -/
theorem C6_counterexample :
    ((parseLines "Title\n## A\n## B\nbody").countP (fun l => isHeadingLine l)) = 2 ∧
    (_parse_article_content (fun _ => 0) "Title\n## A\n## B\nbody"
      [] "en" "professional").sections.length = 1 ∧
    (1 : Nat) ≠ 2 := by
  refine ⟨by decide, by decide, by decide⟩

/-- C6 as amended: for a structured reply — optional non-heading prefix lines
followed by `## `-heading blocks — the parser emits exactly one section per
block whose heading text and body are non-blank: exactly N sections when all
N heading blocks are well formed, each with non-empty heading and body.
Headings with blank text or an empty body are dropped, which is what refutes
the claim as stated. -/
theorem C6_exact_sections (pyHash : String → Int) (keywords : List String)
    (language tone : String) (pre : List (List Char))
    (blocks : List (List Char × List (List Char)))
    (hpre1 : ∀ l ∈ pre, '\n' ∉ l)
    (hpre2 : ∀ l ∈ pre, ¬ ("##").data <:+: l)
    (hpre3 : ∀ l ∈ pre, ¬ ("**").data <:+: l)
    (hb : ∀ b ∈ blocks, goodBlock b)
    (hbne : blocks ≠ [])
    (houter : stripL (joinCh '\n' (pre ++ flattenBlocks blocks)) =
      joinCh '\n' (pre ++ flattenBlocks blocks)) :
    (_parse_article_content pyHash ⟨joinCh '\n' (pre ++ flattenBlocks blocks)⟩
        keywords language tone).sections = blocks.map (blockSection keywords) ∧
    (_parse_article_content pyHash ⟨joinCh '\n' (pre ++ flattenBlocks blocks)⟩
        keywords language tone).sections.length =
      (pre ++ flattenBlocks blocks).countP (fun l => isHeadingLine l) ∧
    ∀ s ∈ (_parse_article_content pyHash ⟨joinCh '\n' (pre ++ flattenBlocks blocks)⟩
        keywords language tone).sections, s.heading ≠ "" ∧ s.content ≠ "" := by
  have hpreH : ∀ l ∈ pre, isHeadingLine l = false := by
    intro l hl
    rw [Bool.eq_false_iff]
    intro hp
    exact hpre2 l hl
      ((List.IsPrefix.trans (by decide) ((prefixOf_iff _ _).mp hp)).isInfix)
  have hnl : ∀ l ∈ pre ++ flattenBlocks blocks, '\n' ∉ l := by
    intro l hl
    rcases List.mem_append.mp hl with h1 | h2
    · exact hpre1 l h1
    · obtain ⟨b, hbm, hcase⟩ := mem_flattenBlocks h2
      rcases hcase with rfl | hbody
      · intro hmem
        rcases List.mem_append.mp hmem with hm | hm
        · exact absurd hm (by decide)
        · exact (hb b hbm).1.1 hm
      · exact (hb b hbm).1.2 l hbody
  have hstar : ¬ ("**").data <:+: joinCh '\n' (pre ++ flattenBlocks blocks) := by
    intro hin
    obtain ⟨l, hl, hli⟩ := infix_joinCh_split (by decide) (by decide) hin
    rcases List.mem_append.mp hl with h1 | h2
    · exact hpre3 l h1 hli
    · obtain ⟨b, hbm, hcase⟩ := mem_flattenBlocks h2
      rcases hcase with rfl | hbody
      · have h3 : ("**").data <:+: b.1 := by
          have e : ("## ").data ++ b.1 = '#' :: '#' :: ' ' :: b.1 := rfl
          rw [e] at hli
          have s1 := infix_cons_of_ne hli (by decide)
          have s2 := infix_cons_of_ne s1 (by decide)
          exact infix_cons_of_ne s2 (by decide)
        exact (hb b hbm).2.1.1 h3
      · exact (hb b hbm).2.1.2 l hbody hli
  have hclean : cleanedContentL ⟨joinCh '\n' (pre ++ flattenBlocks blocks)⟩ =
      joinCh '\n' (pre ++ flattenBlocks blocks) := by
    unfold cleanedContentL
    show stripL (replaceL ("**").data [] (joinCh '\n' (pre ++ flattenBlocks blocks))) = _
    rw [replaceL_no_occ hstar, houter]
  have hLne : pre ++ flattenBlocks blocks ≠ [] := by
    intro h0
    have h1 := List.append_eq_nil.mp h0
    cases blocks with
    | nil => exact hbne rfl
    | cons b bs =>
      have h2 : flattenBlocks (b :: bs) = [] := h1.2
      simp [flattenBlocks] at h2
  have hplines : parseLines ⟨joinCh '\n' (pre ++ flattenBlocks blocks)⟩ =
      pre ++ flattenBlocks blocks := by
    unfold parseLines
    rw [hclean]
    exact splitOnCh_joinCh hLne hnl
  have hsecraw : parseSectionsRaw keywords (pre ++ flattenBlocks blocks) =
      blocks.map (blockSection keywords) :=
    parseSectionsRaw_structured hpreH hpre2 hb
  have hmapne : ¬ (blocks.map (blockSection keywords)).isEmpty = true := by
    simp [List.isEmpty_iff]
    exact hbne
  have hsec : parseSections keywords (pre ++ flattenBlocks blocks) =
      blocks.map (blockSection keywords) := by
    unfold parseSections
    dsimp only
    rw [hsecraw, if_neg hmapne, if_neg hmapne]
  have hfinal : (_parse_article_content pyHash ⟨joinCh '\n' (pre ++ flattenBlocks blocks)⟩
      keywords language tone).sections = blocks.map (blockSection keywords) := by
    rw [parse_sections_eq, hplines, hsec]
  refine ⟨hfinal, ?_, ?_⟩
  · rw [hfinal, List.length_map, List.countP_append]
    have h1 : pre.countP (fun l => isHeadingLine l) = 0 := by
      rw [List.countP_eq_zero]
      intro a ha
      simp [hpreH a ha]
    rw [h1, countP_flattenBlocks (fun b hbm => (hb b hbm).2.2.2.2.1)]
    omega
  · intro s hs
    rw [hfinal, List.mem_map] at hs
    obtain ⟨b, hbm, rfl⟩ := hs
    exact ⟨mkString_ne_empty (hb b hbm).2.2.2.1,
      mkString_ne_empty (hb b hbm).2.2.2.2.2.1⟩

/-- Witness for the amended C6 on a concrete two-block reply. -/
theorem C6_exact_sections_witness :
    (_parse_article_content (fun _ => 0)
      ⟨joinCh '\n' ((["My Title".data]) ++ flattenBlocks
        [(("Intro").data, [("Some body text.").data]),
         (("Details").data, [("More text.").data])])⟩
      [] "en" "professional").sections.length = 2 := by
  have h := C6_exact_sections (fun _ => 0) [] "en" "professional" ["My Title".data]
    [(("Intro").data, [("Some body text.").data]), (("Details").data, [("More text.").data])]
    (by decide) (by decide) (by decide) (by decide) (by decide) (by decide)
  rw [h.1]
  rfl

/-- Counterexample to C7 as stated: the reply below contains zero `'##'`
markers, yet the parser produces two sections, because stripping `'**'`
creates two `## ` heading lines. -/
theorem C7_counterexample :
    pyIn "##" "Title\n#**# A\nbodyA\n#**# B\nbodyB" = false ∧
    (_parse_article_content (fun _ => 0) "Title\n#**# A\nbodyA\n#**# B\nbodyB"
      [] "en" "professional").sections.length = 2 ∧
    (2 : Nat) ≠ 1 := by
  refine ⟨by decide, by decide, by decide⟩

/-- C7 as amended: every parse result has a non-empty section list, and a
reply that contains zero `'##'` markers after `'**'` removal yields exactly
one synthesized section. -/
theorem C7_nonempty_sections (pyHash : String → Int) (content : String)
    (keywords : List String) (language tone : String) :
    (_parse_article_content pyHash content keywords language tone).sections ≠ [] ∧
    (infixBL ("##").data (replaceL ("**").data [] content.data) = false →
      (_parse_article_content pyHash content keywords language tone).sections.length = 1) := by
  constructor
  · rw [parse_sections_eq]
    exact parseSections_ne_nil _ _
  · intro h
    rw [parse_sections_eq]
    apply parseSections_no_heading
    intro hin
    rw [← infixBL_iff] at hin
    rw [h] at hin
    exact Bool.noConfusion hin

/-- Witness for C7 on a concrete marker-free reply. -/
theorem C7_nonempty_sections_witness :
    (_parse_article_content (fun _ => 0) "Just a title\nsome words here"
      [] "en" "professional").sections ≠ [] ∧
    (_parse_article_content (fun _ => 0) "Just a title\nsome words here"
      [] "en" "professional").sections.length = 1 := by
  have h := C7_nonempty_sections (fun _ => 0) "Just a title\nsome words here"
    [] "en" "professional"
  exact ⟨h.1, h.2 (by decide)⟩

theorem initOpenai_err {env : Env} (h : usableOpenaiKey env = false) :
    initOpenai env = Except.error "Please configure a valid OpenAI API key in the .env file" := by
  unfold initOpenai
  dsimp only
  split
  · rfl
  · rename_i hcond
    exfalso
    rw [Bool.not_eq_true] at hcond
    unfold usableOpenaiKey at h
    rw [hcond] at h
    simp at h

theorem initOpenai_ok {env : Env} (h : usableOpenaiKey env = true) :
    exceptOk (initOpenai env) = true := by
  unfold initOpenai
  dsimp only
  split
  · rename_i hcond
    exfalso
    unfold usableOpenaiKey at h
    rw [hcond] at h
    simp at h
  · rfl

theorem initSeedream_err {env : Env} (h : usableArkKey env = false) :
    initSeedream env = Except.error "Please configure ARK_API_KEY in the .env file for SeeDream" := by
  unfold initSeedream
  split
  · rfl
  · rename_i hcond
    exfalso
    rw [Bool.not_eq_true] at hcond
    unfold usableArkKey at h
    rw [hcond] at h
    simp at h

theorem initSeedream_ok {env : Env} (h : usableArkKey env = true) :
    exceptOk (initSeedream env) = true := by
  unfold initSeedream
  split
  · rename_i hcond
    exfalso
    unfold usableArkKey at h
    rw [hcond] at h
    simp at h
  · rfl

theorem imageEngineInit_openai (env : Env) :
    imageEngineInit env "openai" = initOpenai env := by
  unfold imageEngineInit
  dsimp only
  rw [if_pos (by decide)]

theorem imageEngineInit_seedream (env : Env) :
    imageEngineInit env "seedream" = initSeedream env := by
  unfold imageEngineInit
  dsimp only
  rw [if_neg (by decide), if_pos (by decide)]

/-- Counterexample to C9 as stated: with only a SeeDream credential configured
(`ARK_API_KEY` set, no OpenAI key), requesting the OpenAI provider still
raises a configuration error at construction — even through the app-level
fallback wrapper — although a usable provider credential exists. -/
theorem C9_counterexample :
    usableArkKey { openai_api_key := none, ark_api_key := some "ark-key" } = true ∧
    exceptOk (imageEngineInit { openai_api_key := none, ark_api_key := some "ark-key" } "openai") = false ∧
    exceptOk (appInitImageEngine { openai_api_key := none, ark_api_key := some "ark-key" } "openai") = false := by
  refine ⟨by decide, by decide, by decide⟩

/-- C9 as amended: construction raises a configuration error exactly when the
path requested cannot reach a usable credential: with both providers
unconfigured every construction raises (engine and app wrapper, both provider
choices); with a usable OpenAI key the app-level construction succeeds for
both provider choices (SeeDream requests fall back to OpenAI on a missing
`ARK_API_KEY`); with a usable `ARK_API_KEY` a SeeDream request succeeds.  A
request for the OpenAI provider with only a SeeDream credential still raises
(the counterexample), so "a usable credential exists" alone does not prevent
the error. -/
theorem C9_construction (env : Env) :
    (usableOpenaiKey env = false → usableArkKey env = false →
      exceptOk (imageEngineInit env "openai") = false ∧
      exceptOk (imageEngineInit env "seedream") = false ∧
      exceptOk (appInitImageEngine env "openai") = false ∧
      exceptOk (appInitImageEngine env "seedream") = false) ∧
    (usableOpenaiKey env = true →
      exceptOk (appInitImageEngine env "openai") = true ∧
      exceptOk (appInitImageEngine env "seedream") = true) ∧
    (usableArkKey env = true → exceptOk (imageEngineInit env "seedream") = true) := by
  refine ⟨?_, ?_, ?_⟩
  · intro ho ha
    have e1 : imageEngineInit env "openai" =
        Except.error "Please configure a valid OpenAI API key in the .env file" := by
      rw [imageEngineInit_openai, initOpenai_err ho]
    have e2 : imageEngineInit env "seedream" =
        Except.error "Please configure ARK_API_KEY in the .env file for SeeDream" := by
      rw [imageEngineInit_seedream, initSeedream_err ha]
    refine ⟨by rw [e1]; rfl, by rw [e2]; rfl, ?_, ?_⟩
    · simp only [appInitImageEngine, e1]
      rw [if_neg (by decide)]
      rfl
    · simp only [appInitImageEngine, e2]
      rw [if_pos (by decide)]
      rw [imageEngineInit_openai, initOpenai_err ho]
      rfl
  · intro ho
    constructor
    · simp only [appInitImageEngine, imageEngineInit_openai]
      have hokO := initOpenai_ok ho
      cases hI : initOpenai env with
      | ok e => rfl
      | error m =>
        rw [hI] at hokO
        simp [exceptOk] at hokO
    · simp only [appInitImageEngine, imageEngineInit_seedream]
      cases hA : usableArkKey env with
      | true =>
        have hokS := initSeedream_ok hA
        cases hI : initSeedream env with
        | ok e => rfl
        | error m =>
          rw [hI] at hokS
          simp [exceptOk] at hokS
      | false =>
        rw [initSeedream_err hA]
        dsimp only
        rw [if_pos (by decide)]
        rw [imageEngineInit_openai]
        have hokO := initOpenai_ok ho
        cases hI : initOpenai env with
        | ok e => rfl
        | error m =>
          rw [hI] at hokO
          simp [exceptOk] at hokO
  · intro ha
    rw [imageEngineInit_seedream]
    exact initSeedream_ok ha

/-- Witness for the amended C9 on two concrete environments. -/
theorem C9_construction_witness :
    exceptOk (imageEngineInit { openai_api_key := none, ark_api_key := none } "openai") = false ∧
    exceptOk (appInitImageEngine { openai_api_key := none, ark_api_key := none } "seedream") = false ∧
    exceptOk (appInitImageEngine { openai_api_key := some "sk-proj-abc", ark_api_key := none } "seedream") = true := by
  have h1 := C9_construction { openai_api_key := none, ark_api_key := none }
  have h2 := C9_construction { openai_api_key := some "sk-proj-abc", ark_api_key := none }
  exact ⟨(h1.1 (by decide) (by decide)).1, (h1.1 (by decide) (by decide)).2.2.2,
    (h2.2.1 (by decide)).2⟩

end AIArticle
